import Mathlib

/-!
Verification development for the `omniduct` connection-lifecycle core
(`omniduct/duct.py`): a shallow embedding of the `Duct` base class (its
attribute-access interception, preparation, connect/disconnect/reset
lifecycle, credential resolution, reachability check) and of the
protocol-registration metaclass, together with theorems about the claims
of the specification.

Modelling conventions:
* Python attribute values are the inductive `Value`; a Python callable is
  modelled by the value it returns when invoked (`Value.callable`) or by
  the error it raises (`Value.callableErr`).
* Exceptions are modelled with `Except Err`; every operation has the shape
  `DuctState → DuctState × Except Err α` (state at raise time is kept).
* The abstract protocol hooks `_connect` / `_is_connected` / `_disconnect`
  are modelled by a boolean connection flag `protoConn` (a well-behaved
  subclass): `_connect` sets it (or raises `Env.connectFails`),
  `_is_connected` reads it, `_disconnect` clears it (or raises
  `Env.disconnectFails`).
* The external world (local port probe, remote reachability, interactive
  prompts, registry lookups, load balancer) is the record `Env`.
* The `c*` fields of `DuctState` are instrumentation counters (number of
  invocations of the hooks, of `disconnect`, of the prompts, ...); no
  definition branches on them, they only serve to state "at most once" /
  "exactly once" properties.
-/

/-- Exceptions that the modelled code can raise. `custom n` stands for an
arbitrary protocol-specific error raised by a subclass hook. -/
inductive Err where
  | attributeError
  | typeError
  | assertionError
  | valueError (msg : String)
  | ductServerUnreachable (msg : String)
  | ductProtocolUnknown (msg : String)
  | custom (n : Nat)
deriving DecidableEq, Repr

/-- Python attribute values as they occur in the `Duct` lifecycle code. -/
inductive Value where
  | none
  | bool (b : Bool)
  | int (n : Int)
  | str (s : String)
  | list (xs : List String)
  | callable (r : Value)
  | callableErr (e : Err)
  | obj (kind : String)
deriving DecidableEq, Repr

/-- The instance attributes that the `Duct` machinery manipulates by name.
`hostRaw` is the Python attribute `_host` (and similarly for the other
`*Raw` fields); `host`/`port`/`username`/`password` are the properties. -/
inductive AttrName where
  | host
  | port
  | username
  | password
  | remote
  | cache
  | registry
  | hostRaw
  | portRaw
  | usernameRaw
  | passwordRaw
deriving DecidableEq, Repr

/-- `self.connection_fields`, as set in `Duct.__init__`:
`('host', 'port', 'remote', 'username', 'password')`. -/
def connectionFields : List AttrName :=
  [AttrName.host, AttrName.port, AttrName.remote, AttrName.username, AttrName.password]

/-- `Duct.__prepare_triggers`: `('cache',) + self.connection_fields`. -/
def prepareTriggers : List AttrName :=
  [AttrName.cache, AttrName.host, AttrName.port, AttrName.remote, AttrName.username, AttrName.password]

/-- `self.prepared_fields`, as set in `Duct.__init__`:
`('_host', '_port', '_username', '_password')`. -/
def preparedFields : List AttrName :=
  [AttrName.hostRaw, AttrName.portRaw, AttrName.usernameRaw, AttrName.passwordRaw]

/-- Python truthiness of a `Value` (`bool(v)`). -/
def pyTruthy : Value → Bool
  | Value.none => false
  | Value.bool b => b
  | Value.int n => decide (n ≠ 0)
  | Value.str s => !s.isEmpty
  | Value.list xs => !xs.isEmpty
  | Value.callable _ => true
  | Value.callableErr _ => true
  | Value.obj _ => true

/-- `hasattr(value, '__call__')`. -/
def isCallable : Value → Bool
  | Value.callable _ => true
  | Value.callableErr _ => true
  | _ => false

/-- Invoking a callable value with a reference to the instance
(`value(self)`); normal values are never invoked by the code. -/
def callV : Value → Except Err Value
  | Value.callable r => Except.ok r
  | Value.callableErr e => Except.error e
  | _ => Except.ok Value.none

/-- Rendering of a value inside a formatted message (`str(v)`). -/
def fmtV : Value → String
  | Value.none => "None"
  | Value.bool b => if b then "True" else "False"
  | Value.int n => toString n
  | Value.str s => s
  | Value.list _ => "[...]"
  | Value.callable _ => "<callable>"
  | Value.callableErr _ => "<callable>"
  | Value.obj k => "<" ++ k ++ ">"

/-- Digits to a natural number (helper for `int(...)` on strings). -/
def digitsToNat (l : List Char) : Nat :=
  l.foldl (fun a c => a * 10 + (c.toNat - 48)) 0

/-- Python `int(v)`: identity on ints, `0/1` on bools, base-10 parse
(optional surrounding whitespace and sign) on strings — `ValueError` on a
malformed string, `TypeError` on other types. -/
def pyInt (v : Value) : Except Err Value :=
  match v with
  | Value.int n => Except.ok (Value.int n)
  | Value.bool b => Except.ok (Value.int (if b then 1 else 0))
  | Value.str s =>
    let t := s.trim
    let p : Bool × List Char :=
      match t.toList with
      | '-' :: rest => (true, rest)
      | '+' :: rest => (false, rest)
      | l => (false, l)
    if p.2 ≠ [] ∧ p.2.all Char.isDigit then
      Except.ok (Value.int (if p.1 then -(digitsToNat p.2 : Int) else (digitsToNat p.2 : Int)))
    else Except.error (Err.valueError ("invalid literal for int: " ++ s))
  | _ => Except.error Err.typeError

/-- The test `re.match(r'[^\:]+:[0-9]\x7b1,5\x7d', host)` from
`Duct._prepare`: the string starts with at least one non-colon character,
followed by a colon, followed by at least one digit (`re.match` does not
anchor the end of the string, so trailing characters are irrelevant). -/
def matchesHostPort (h : String) : Bool :=
  match h.splitOn ":" with
  | p :: r :: _ =>
    (!p.isEmpty) && (match r.toList with
      | c :: _ => c.isDigit
      | [] => false)
  | _ => false

/-- The external collaborators and hook behaviours of one execution. -/
structure Env where
  localPortBound : Value → Value → Bool
  remoteBound : Value → Value → Bool
  connectFails : Option Err
  disconnectFails : Option Err
  promptUser : String
  promptPass : String
  osLogin : String
  lookupRemote : String → Value
  lookupCache : String → Value
  loadBalance : List String → Value → Value
  freshPort : Int

/-- The mutable state of one `Duct` instance (plus instrumentation
counters `c*`, which no definition branches on). -/
structure DuctState where
  hostRaw : Value
  portRaw : Value
  usernameRaw : Value
  passwordRaw : Value
  remoteV : Value
  cacheV : Value
  registryV : Value
  remoteName : String
  prepared : Bool
  getting : Bool
  disconnecting : Bool
  cachedUser : Option String
  cachedPass : Option String
  snapshot : List (AttrName × Value)
  remoteForwards : List (Value × Value × Int)
  protoConn : Bool
  cHook : Nat
  cDiscHook : Nat
  cDisc : Nat
  cPrep : Nat
  cPromptU : Nat
  cPromptP : Nat
  cWarn : Nat
deriving Repr

/-- Python return values of the lifecycle methods (`self` or `None`). -/
inductive RetVal where
  | noneV
  | selfV
deriving DecidableEq, Repr

/-- Sequencing of state-passing fallible computations. -/
def bindE {α β : Type} (r : DuctState × Except Err α)
    (k : α → DuctState → DuctState × Except Err β) : DuctState × Except Err β :=
  match r with
  | (s, Except.ok a) => k a s
  | (s, Except.error e) => (s, Except.error e)

@[simp] theorem bindE_ok {α β : Type} (s : DuctState) (a : α)
    (k : α → DuctState → DuctState × Except Err β) :
    bindE (s, Except.ok a) k = k a s := rfl

@[simp] theorem bindE_error {α β : Type} (s : DuctState) (e : Err)
    (k : α → DuctState → DuctState × Except Err β) :
    bindE (s, Except.error e) k = (s, Except.error e) := rfl

/-- Exception handler combinator (`try ... except`). -/
def catchE {α : Type} (r : DuctState × Except Err α)
    (h : Err → DuctState → DuctState × Except Err α) : DuctState × Except Err α :=
  match r with
  | (s, Except.ok a) => (s, Except.ok a)
  | (s, Except.error e) => h e s

@[simp] theorem catchE_ok {α : Type} (s : DuctState) (a : α)
    (h : Err → DuctState → DuctState × Except Err α) :
    catchE (s, Except.ok a) h = (s, Except.ok a) := rfl

@[simp] theorem catchE_error {α : Type} (s : DuctState) (e : Err)
    (h : Err → DuctState → DuctState × Except Err α) :
    catchE (s, Except.error e) h = h e s := rfl

/-- Raw read of an instance attribute (`object.__getattribute__` for the
underlying slot; for the property names this is the backing attribute the
setter writes). -/
def readRaw (f : AttrName) (s : DuctState) : Value :=
  match f with
  | AttrName.host => s.hostRaw
  | AttrName.port => s.portRaw
  | AttrName.username => s.usernameRaw
  | AttrName.password => s.passwordRaw
  | AttrName.remote => s.remoteV
  | AttrName.cache => s.cacheV
  | AttrName.registry => s.registryV
  | AttrName.hostRaw => s.hostRaw
  | AttrName.portRaw => s.portRaw
  | AttrName.usernameRaw => s.usernameRaw
  | AttrName.passwordRaw => s.passwordRaw

/-- Raw write of an instance attribute (`object.__setattr__`; writing one
of the property names dispatches to the property setter, which stores the
value in the backing `_`-attribute). -/
def rawStore (f : AttrName) (v : Value) (s : DuctState) : DuctState :=
  match f with
  | AttrName.host => {s with hostRaw := v}
  | AttrName.port => {s with portRaw := v}
  | AttrName.username => {s with usernameRaw := v}
  | AttrName.password => {s with passwordRaw := v}
  | AttrName.remote => {s with remoteV := v}
  | AttrName.cache => {s with cacheV := v}
  | AttrName.registry => {s with registryV := v}
  | AttrName.hostRaw => {s with hostRaw := v}
  | AttrName.portRaw => {s with portRaw := v}
  | AttrName.usernameRaw => {s with usernameRaw := v}
  | AttrName.passwordRaw => {s with passwordRaw := v}

/-- The backing attribute actually written when assigning to `f`. -/
def target (f : AttrName) : AttrName :=
  match f with
  | AttrName.host => AttrName.hostRaw
  | AttrName.port => AttrName.portRaw
  | AttrName.username => AttrName.usernameRaw
  | AttrName.password => AttrName.passwordRaw
  | f => f

/-- The forward (if any) the attached remote holds for the instance's
current `_host`/`_port` pair (`remote.has_port_forward(self._host, self._port)` /
the entry `remote.port_forward(...)` would return). -/
def findFwd (s : DuctState) : Option (Value × Value × Int) :=
  s.remoteForwards.find? (fun t => decide (t.1 = s.hostRaw) && decide (t.2.1 = s.portRaw))

/-- `remote.has_port_forward(self._host, self._port)`. -/
def hasForwardB (s : DuctState) : Bool := (findFwd s).isSome

/-- The local port of the existing forward for `_host`/`_port` (only read
on paths where `hasForwardB` holds). -/
def lookupLP (s : DuctState) : Int :=
  match findFwd s with
  | some t => t.2.2
  | Option.none => 0

/-- `Duct.disconnect` (`duct.py` 630–655). Returns early (with Python
`None`) when the instance is not prepared; otherwise sets the
`__disconnecting` guard, invokes the `_disconnect` hook, tears the tunnel
forward down *only on the hook's success* (the teardown sits inside the
`try` body), and clears the guard in the `finally` clause.
`teardownList` is the forward table after the conditional teardown
(`if self.remote and self.remote.has_port_forward(self._host, self._port):
self.remote.port_forward_stop(local_port=self.port)`). -/
def teardownList (s : DuctState) : List (Value × Value × Int) :=
  if pyTruthy s.remoteV ∧ hasForwardB s then
    s.remoteForwards.filter (fun t => decide (t.2.2 ≠ lookupLP s))
  else s.remoteForwards

/-- `Duct.disconnect` body after the guard: tear the forward down only on
hook success (see below). -/
def disconnect (env : Env) (s : DuctState) : DuctState × Except Err RetVal :=
  let s0 := {s with cDisc := s.cDisc + 1}
  if s0.prepared = false then (s0, Except.ok RetVal.noneV) else
  let s1 := {s0 with disconnecting := true}
  let s2 := {s1 with cDiscHook := s1.cDiscHook + 1}
  match env.disconnectFails with
  | some e => ({s2 with disconnecting := false}, Except.error e)
  | Option.none =>
    let s3 := {s2 with protoConn := false}
    ({s3 with remoteForwards := teardownList s3, disconnecting := false},
     Except.ok RetVal.selfV)

/-- `Duct.is_connected` (`duct.py` 599–619): `False` when unprepared; with
a remote attached, `False` when no forward exists, and when the forwarded
local endpoint is not bound it disconnects first and returns `False`;
otherwise delegates to the `_is_connected` hook (`protoConn`). -/
def is_connected (env : Env) (s : DuctState) : DuctState × Except Err Bool :=
  if s.prepared = false then (s, Except.ok false) else
  if pyTruthy s.remoteV then
    if hasForwardB s = false then (s, Except.ok false)
    else
      if env.localPortBound (Value.str "127.0.0.1") (Value.int (lookupLP s)) = false then
        bindE (disconnect env s) (fun _ s1 => (s1, Except.ok false))
      else (s, Except.ok s.protoConn)
  else (s, Except.ok s.protoConn)

/-- `Duct.__setattr__` (`duct.py` 358–369): the field-change monitor. If
the instance is prepared, the attribute is a connection field and the
instance reports connected, it logs a warning, disconnects and clears the
prepared flag before storing; an `AttributeError` from the monitor is
swallowed, any other error aborts the store. Assigning to a property name
dispatches to the property setter, which stores into the backing
`_`-attribute (`rawStore (target f)`). -/
def setAttrMonitor (env : Env) (f : AttrName) (s : DuctState) :
    DuctState × Except Err Unit :=
  if s.prepared = true ∧ f ∈ connectionFields then
    bindE (is_connected env s) (fun c s1 =>
      if c then
        bindE (disconnect env {s1 with cWarn := s1.cWarn + 1}) (fun _ s3 =>
          ({s3 with prepared := false}, Except.ok ()))
      else (s1, Except.ok ()))
  else (s, Except.ok ())

/-- `Duct.__setattr__` continued: the monitor, with `AttributeError`
swallowed (`except AttributeError: pass`), then the store. -/
def setAttr (env : Env) (f : AttrName) (v : Value) (s : DuctState) :
    DuctState × Except Err Unit :=
  match setAttrMonitor env f s with
  | (s4, Except.ok _) => (rawStore (target f) v s4, Except.ok ())
  | (s4, Except.error Err.attributeError) => (rawStore (target f) v s4, Except.ok ())
  | (s4, Except.error e) => (s4, Except.error e)

/-- Ordered-dict insertion into the preparation snapshot
(`self.__prepreparation_values[key] = value`). -/
def snapInsert (f : AttrName) (v : Value) (l : List (AttrName × Value)) :
    List (AttrName × Value) :=
  if (l.find? (fun p => decide (p.1 = f))).isSome then
    l.map (fun p => if p.1 = f then (f, v) else p)
  else l ++ [(f, v)]

/-- `key in self.__prepreparation_values`. -/
def snapMember (f : AttrName) (l : List (AttrName × Value)) : Bool :=
  (l.find? (fun p => decide (p.1 = f))).isSome

/-- `assert (self.registry is None) or isinstance(self.registry, DuctRegistry)`. -/
def regOk : Value → Bool
  | Value.none => true
  | Value.obj k => decide (k = "registry")
  | _ => false

/-- `assert (self.remote is None) or isinstance(self.remote, RemoteClient)`. -/
def remOk : Value → Bool
  | Value.none => true
  | Value.obj k => decide (k = "remote")
  | _ => false

/-- `assert (self.cache is None) or isinstance(self.cache, Cache)`. -/
def cacOk : Value → Bool
  | Value.none => true
  | Value.obj k => decide (k = "cache")
  | _ => false

/-- The registry-lookup step of `Duct._prepare` (`duct.py` 413–419):
string-valued `remote`/`cache` are recorded in the snapshot and replaced
via `self.registry.lookup`. -/
def lookupRemoteStage (env : Env) (s : DuctState) : DuctState :=
  match s.remoteV with
  | Value.str rs =>
    if rs.isEmpty then s
    else {s with snapshot := snapInsert AttrName.remote (Value.str rs) s.snapshot,
                 remoteV := env.lookupRemote rs}
  | _ => s

/-- The cache half of the registry-lookup step. -/
def lookupCacheStage (env : Env) (s : DuctState) : DuctState :=
  match s.cacheV with
  | Value.str cs =>
    if cs.isEmpty then s
    else {s with snapshot := snapInsert AttrName.cache (Value.str cs) s.snapshot,
                 cacheV := env.lookupCache cs}
  | _ => s

/-- Both registry lookups, gated on a registry being present. -/
def lookupStage (env : Env) (s : DuctState) : DuctState :=
  if s.registryV = Value.none then s else
  lookupCacheStage env (lookupRemoteStage env s)

/-- One iteration of the prepared-fields loop of `Duct._prepare`
(`duct.py` 427–431): a callable value is snapshotted and replaced by the
result of invoking it (stores during `_prepare` happen with
`__prepared == False`, so the field-change monitor is inert and the store
is a raw store). -/
def resolveField (f : AttrName) (s : DuctState) : DuctState × Except Err Unit :=
  let v := readRaw f s
  if isCallable v then
    let s1 := {s with snapshot := snapInsert f v s.snapshot}
    match callV v with
    | Except.ok r => (rawStore f r s1, Except.ok ())
    | Except.error e => (s1, Except.error e)
  else (s, Except.ok ())

/-- The prepared-fields loop over `('_host', '_port', '_username', '_password')`. -/
def resolveFields (s : DuctState) : DuctState × Except Err Unit :=
  bindE (resolveField AttrName.hostRaw s) (fun _ sa =>
  bindE (resolveField AttrName.portRaw sa) (fun _ sb =>
  bindE (resolveField AttrName.usernameRaw sb) (fun _ sc =>
  resolveField AttrName.passwordRaw sc)))

/-- The host-list step of `Duct._prepare` (`duct.py` 433–436): a
list-valued `_host` is snapshotted (only if not already snapshotted) and
reduced to a single host by the load balancer. -/
def hostListStage (env : Env) (s : DuctState) : DuctState :=
  match s.hostRaw with
  | Value.list xs =>
    let s1 :=
      if snapMember AttrName.hostRaw s.snapshot then s
      else {s with snapshot := snapInsert AttrName.hostRaw (Value.list xs) s.snapshot}
    {s1 with hostRaw := env.loadBalance xs s1.portRaw}
  | _ => s

/-- The `host:port` splitting step of `Duct._prepare` (`duct.py` 439–440):
`re.match` on a non-`None` non-string raises `TypeError`; on a match,
`self._host.split(':')` must produce exactly two pieces or the tuple
unpacking raises `ValueError`. -/
def splitStage (s : DuctState) : DuctState × Except Err Unit :=
  match s.hostRaw with
  | Value.none => (s, Except.ok ())
  | Value.str hs =>
    if matchesHostPort hs then
      match hs.splitOn ":" with
      | [a, b] => ({s with hostRaw := Value.str a, portRaw := Value.str b}, Except.ok ())
      | _ => (s, Except.error (Err.valueError "too many values to unpack"))
    else (s, Except.ok ())
  | _ => (s, Except.error Err.typeError)

/-- The port-coercion step of `Duct._prepare` (`duct.py` 443):
`self.port = int(self._port) if self._port else None` (the assignment runs
with `__prepared == False`, so the monitor is inert and the property
setter stores into `_port`). -/
def portStage (s : DuctState) : DuctState × Except Err Unit :=
  if pyTruthy s.portRaw then
    match pyInt s.portRaw with
    | Except.ok r => (rawStore AttrName.portRaw r s, Except.ok ())
    | Except.error e => (s, Except.error e)
  else (rawStore AttrName.portRaw Value.none s, Except.ok ())

/-- `Duct._prepare` (`duct.py` 388–443), as invoked on an unprepared
instance with the `__getting` guard set (the only way the lifecycle claims
reach it), where all its own attribute reads are plain reads. -/
def prepareImpl (env : Env) (s : DuctState) : DuctState × Except Err Unit :=
  let s0 := {s with cPrep := s.cPrep + 1}
  if regOk s0.registryV = false then (s0, Except.error Err.assertionError) else
  let s1 := lookupStage env s0
  if remOk s1.remoteV = false then (s1, Except.error Err.assertionError) else
  if cacOk s1.cacheV = false then (s1, Except.error Err.assertionError) else
  bindE (resolveFields s1) (fun _ s2 =>
  bindE (splitStage (hostListStage env s2)) (fun _ s4 => portStage s4))

/-- `Duct.prepare` (`duct.py` 371–386): run `_prepare` and record success
when not already prepared. -/
def prepare (env : Env) (s : DuctState) : DuctState × Except Err Unit :=
  if s.prepared then (s, Except.ok ()) else
  bindE (prepareImpl env s) (fun _ s1 => ({s1 with prepared := true}, Except.ok ()))

/-- Plain attribute read (`object.__getattribute__`): evaluates the
property getters of `host` (loopback when a remote is attached), `port`
(port-forwarded local port, creating the forward on demand), `username`
and `password` (credential resolution with interactive prompt-and-cache
for the `True` sentinel, OS login fallback for a falsy username), and the
raw slots otherwise. -/
def evalProp (env : Env) (f : AttrName) (s : DuctState) : DuctState × Value :=
  match f with
  | AttrName.host => if pyTruthy s.remoteV then (s, Value.str "127.0.0.1") else (s, s.hostRaw)
  | AttrName.port =>
    if pyTruthy s.remoteV then
      match findFwd s with
      | some t => (s, Value.int t.2.2)
      | Option.none =>
        ({s with remoteForwards := s.remoteForwards ++ [(s.hostRaw, s.portRaw, env.freshPort)]},
         Value.int env.freshPort)
    else (s, s.portRaw)
  | AttrName.username =>
    match s.usernameRaw with
    | Value.bool true =>
      match s.cachedUser with
      | some u => (s, Value.str u)
      | Option.none =>
        ({s with cachedUser := some env.promptUser, cPromptU := s.cPromptU + 1},
         Value.str env.promptUser)
    | Value.bool false => (s, Value.none)
    | v => if pyTruthy v then (s, v) else (s, Value.str env.osLogin)
  | AttrName.password =>
    match s.passwordRaw with
    | Value.bool true =>
      match s.cachedPass with
      | some p => (s, Value.str p)
      | Option.none =>
        ({s with cachedPass := some env.promptPass, cPromptP := s.cPromptP + 1},
         Value.str env.promptPass)
    | Value.bool false => (s, Value.none)
    | v => (s, v)
  | AttrName.remote => (s, s.remoteV)
  | AttrName.cache => (s, s.cacheV)
  | AttrName.registry => (s, s.registryV)
  | AttrName.hostRaw => (s, s.hostRaw)
  | AttrName.portRaw => (s, s.portRaw)
  | AttrName.usernameRaw => (s, s.usernameRaw)
  | AttrName.passwordRaw => (s, s.passwordRaw)

/-- `Duct.__getattribute__` (`duct.py` 342–356): reading a
preparation-trigger attribute on an unprepared, quiescent instance sets
the `__getting` guard, runs `prepare`, and clears the guard — except that
an `AttributeError` raised by `prepare` is swallowed by the
`except AttributeError: pass` handler, which leaves the guard set. Any
other error clears the guard and propagates. -/
def getAttr (env : Env) (f : AttrName) (s : DuctState) : DuctState × Except Err Value :=
  if s.prepared = false ∧ s.getting = false ∧ s.disconnecting = false ∧ f ∈ prepareTriggers then
    catchE
      (bindE (prepare env {s with getting := true}) (fun _ s2 =>
        ((evalProp env f {s2 with getting := false}).1,
         Except.ok (evalProp env f {s2 with getting := false}).2)))
      (fun e s2 =>
        if e = Err.attributeError then
          ((evalProp env f s2).1, Except.ok (evalProp env f s2).2)
        else ({s2 with getting := false}, Except.error e))
  else ((evalProp env f s).1, Except.ok (evalProp env f s).2)

/-- The message of the remote-unreachable error raised by
`Duct.__assert_server_reachable`. -/
def remoteUnreachableMsg (s : DuctState) : String :=
  "Remote '" ++ s.remoteName ++ "' cannot connect to '" ++ fmtV s.hostRaw ++ ":" ++
    fmtV s.portRaw ++ "'. Please check your settings before trying again."

/-- The message of the local-unreachable error raised by
`Duct.__assert_server_reachable`, naming the effective host and port. -/
def localUnreachableMsg (h p : Value) : String :=
  "Cannot connect to '" ++ fmtV h ++ ":" ++ fmtV p ++
    "' on your current connection. Please check your connection before trying again."

/-- The no-tunnel failure path of `Duct.__assert_server_reachable`
(`duct.py` 542–546): disconnect, then raise the local-unreachable error
whose message re-reads `self.host` and `self.port`. -/
def localUnreachableFail (env : Env) (sh : DuctState) : DuctState × Except Err Unit :=
  bindE (disconnect env sh) (fun _ sk =>
  bindE (getAttr env AttrName.host sk) (fun h4 sl =>
  bindE (getAttr env AttrName.port sl) (fun p3 sm =>
  (sm, Except.error (Err.ductServerUnreachable (localUnreachableMsg h4 p3))))))

/-- The tunnel failure path of `Duct.__assert_server_reachable`
(`duct.py` 537–541): ask the remote whether the raw host/port is bound
from its vantage point, and on failure disconnect and raise the
remote-unreachable error. -/
def remoteUnreachableCheck (env : Env) (sh : DuctState) : DuctState × Except Err Unit :=
  bindE (getAttr env AttrName.hostRaw sh) (fun hr si =>
  bindE (getAttr env AttrName.portRaw si) (fun pr sj =>
  if env.remoteBound hr pr = false then
    bindE (disconnect env sj) (fun _ sk =>
      (sk, Except.error (Err.ductServerUnreachable (remoteUnreachableMsg sk))))
  else (sj, Except.ok ())))

/-- The unreachable-endpoint dispatch of `Duct.__assert_server_reachable`
(`duct.py` 536–546), entered when the local `host:port` is not bound. -/
def unreachDispatch (env : Env) (sg : DuctState) : DuctState × Except Err Unit :=
  bindE (getAttr env AttrName.remote sg) (fun r sh =>
  if pyTruthy r then remoteUnreachableCheck env sh
  else localUnreachableFail env sh)

/-- The host/port consistency check of `Duct.__assert_server_reachable`
(`duct.py` 528–534): skip when both effective values are `None`; raise a
`ValueError` when exactly one is set. Returns whether the reachability
probe must run. -/
def hostPortConsistency (env : Env) (s : DuctState) : DuctState × Except Err Bool :=
  bindE (getAttr env AttrName.host s) (fun h1 sa =>
  bindE (if h1 ≠ Value.none then (sa, Except.ok true)
         else bindE (getAttr env AttrName.port sa) (fun p0 sb =>
                (sb, Except.ok (decide (p0 ≠ Value.none)))))
    (fun cond sc =>
  if cond then
    bindE (getAttr env AttrName.host sc) (fun h2 sd =>
    if h2 = Value.none then
      (sd, Except.error (Err.valueError "Port specified but no host provided."))
    else
    bindE (getAttr env AttrName.port sd) (fun p1 se =>
    if p1 = Value.none then
      (se, Except.error (Err.valueError "Host specified but no port specified."))
    else (se, Except.ok true)))
  else (sc, Except.ok false)))

/-- `Duct.__assert_server_reachable` (`duct.py` 527–546), with every
`self.x` occurrence of the source modelled as its own attribute read in
Python's evaluation order (including short-circuiting). -/
def assertServerReachable (env : Env) (s : DuctState) : DuctState × Except Err Unit :=
  bindE (hostPortConsistency env s) (fun check se =>
  if check then
    bindE (getAttr env AttrName.host se) (fun h3 sf =>
    bindE (getAttr env AttrName.port sf) (fun p2 sg =>
    if env.localPortBound h3 p2 then (sg, Except.ok ())
    else unreachDispatch env sg))
  else (se, Except.ok ()))

/-- The `_connect` hook invocation inside `Duct.connect`: counted, and
either raises `env.connectFails` or establishes the connection. -/
def connectHook (env : Env) (s : DuctState) : DuctState × Except Err Unit :=
  let s1 := {s with cHook := s.cHook + 1}
  match env.connectFails with
  | some e => (s1, Except.error e)
  | Option.none => ({s1 with protoConn := true}, Except.ok ())

/-- The restore loop of `Duct.reset`
(`for key, value in self.__prepreparation_values.items(): setattr(self, key, value)`);
each store goes through the full `__setattr__` monitor. -/
def restoreAll (env : Env) : List (AttrName × Value) → DuctState → DuctState × Except Err Unit
  | [], s => (s, Except.ok ())
  | (f, v) :: rest, s =>
    bindE (setAttr env f v s) (fun _ s1 => restoreAll env rest s1)

/-- `Duct.reset` (`duct.py` 675–693): disconnect, clear the cached
interactive credentials, restore every snapshotted field, clear the
snapshot, clear the prepared flag, return `self`. -/
def reset (env : Env) (s : DuctState) : DuctState × Except Err RetVal :=
  bindE (disconnect env s) (fun _ s1 =>
  bindE (restoreAll env s1.snapshot {s1 with cachedUser := Option.none, cachedPass := Option.none})
    (fun _ s3 => ({s3 with snapshot := [], prepared := false}, Except.ok RetVal.selfV)))

/-- `Duct.connect` (`duct.py` 549–587): the `if self.host:` logging read
(which is what lazily triggers preparation), the reachability check, the
`is_connected` consultation, then the `_connect` hook with
reset-and-reraise on failure, the closing logging read, and `self`. -/
def connect (env : Env) (s : DuctState) : DuctState × Except Err RetVal :=
  bindE (getAttr env AttrName.host s) (fun _ s1 =>
  bindE (assertServerReachable env s1) (fun _ s2 =>
  bindE (is_connected env s2) (fun c s3 =>
  bindE (if c then (s3, Except.ok ())
         else
           catchE (connectHook env s3) (fun e s4 =>
             bindE (reset env s4) (fun _ s5 => (s5, Except.error e))))
    (fun _ s6 =>
  bindE (getAttr env AttrName.host s6) (fun _ s7 => (s7, Except.ok RetVal.selfV))))))

/-- `Duct.__init__` (`duct.py` 253–294) for an instance with the default
connection/prepared field lists: all constructor arguments are stored
through `__setattr__` before `__prepared` exists, so the monitor is inert
and the property setters store into the backing attributes; the guard
flags, caches and snapshot start cleared. -/
def initDuct (host port username password remote cache registry : Value) : DuctState :=
  { hostRaw := host
    portRaw := port
    usernameRaw := username
    passwordRaw := password
    remoteV := remote
    cacheV := cache
    registryV := registry
    remoteName := "remote"
    prepared := false
    getting := false
    disconnecting := false
    cachedUser := Option.none
    cachedPass := Option.none
    snapshot := []
    remoteForwards := []
    protoConn := false
    cHook := 0
    cDiscHook := 0
    cDisc := 0
    cPrep := 0
    cPromptU := 0
    cPromptP := 0
    cWarn := 0 }

/-- Association lookup in the protocol registry (`cls._protocols[key]`,
implementations identified by `cls.__name__`). -/
def lookupA (m : List (String × String)) (k : String) : Option String :=
  match m with
  | [] => Option.none
  | (a, b) :: t => if a = k then some b else lookupA t k

/-- Binding update (`cls._protocols[key] = cls`). -/
def updateA (m : List (String × String)) (k v : String) : List (String × String) :=
  match lookupA m k with
  | some _ => m.map (fun p => if p.1 = k then (k, v) else p)
  | Option.none => m ++ [(k, v)]

/-- `ProtocolRegisteringABCMeta.__init__` (`duct.py` 31–43): register a
class under each of its protocol keys; a key already bound to a
*different* class name is left bound and the attempt is logged (the
returned `Nat` counts the logged ignored registrations). -/
def register_protocols (m : List (String × String)) (clsName : String)
    (keys : List String) : List (String × String) × Nat :=
  keys.foldl
    (fun acc key =>
      match lookupA acc.1 key with
      | some existing =>
        if clsName ≠ existing then (acc.1, acc.2 + 1)
        else (updateA acc.1 key clsName, acc.2)
      | Option.none => (updateA acc.1 key clsName, acc.2))
    (m, 0)

/-- `ProtocolRegisteringABCMeta._for_protocol` (`duct.py` 45–48): resolve
a protocol key or fail with `DuctProtocolUnknown`. -/
def for_protocol (m : List (String × String)) (key : String) : Except Err String :=
  match lookupA m key with
  | Option.none =>
    Except.error (Err.ductProtocolUnknown
      ("Missing `Duct` implementation for protocol: '" ++ key ++ "'."))
  | some n => Except.ok n

/-! ### Basic lemmas about raw attribute storage -/

/-- The snapshot keys that `Duct._prepare` can record. -/
def snapKeys : List AttrName :=
  [AttrName.remote, AttrName.cache, AttrName.hostRaw, AttrName.portRaw,
   AttrName.usernameRaw, AttrName.passwordRaw]

theorem target_id_of_snapKey (f : AttrName) (h : f ∈ snapKeys) : target f = f := by
  fin_cases h <;> rfl

theorem readRaw_rawStore_self (f : AttrName) (v : Value) (s : DuctState)
    (h : f ∈ snapKeys) : readRaw f (rawStore f v s) = v := by
  fin_cases h <;> rfl

theorem readRaw_rawStore_ne (g f : AttrName) (v : Value) (s : DuctState)
    (hg : g ∈ snapKeys) (hf : f ∈ snapKeys) (hne : g ≠ f) :
    readRaw g (rawStore f v s) = readRaw g s := by
  fin_cases hg <;> fin_cases hf <;> simp_all [readRaw, rawStore]

/-! ### Characterization of `disconnect` -/

theorem disconnect_not_prepared (env : Env) (s : DuctState) (h : s.prepared = false) :
    disconnect env s = ({s with cDisc := s.cDisc + 1}, Except.ok RetVal.noneV) := by
  simp [disconnect, h]

theorem disconnect_hook_fails (env : Env) (s : DuctState) (e : Err)
    (hp : s.prepared = true) (hf : env.disconnectFails = some e) :
    disconnect env s =
      ({s with cDisc := s.cDisc + 1, cDiscHook := s.cDiscHook + 1, disconnecting := false},
       Except.error e) := by
  simp [disconnect, hp, hf]

theorem teardownList_congr (s t : DuctState) (h1 : s.remoteV = t.remoteV)
    (h2 : s.hostRaw = t.hostRaw) (h3 : s.portRaw = t.portRaw)
    (h4 : s.remoteForwards = t.remoteForwards) : teardownList s = teardownList t := by
  have hf : findFwd s = findFwd t := by
    unfold findFwd; rw [h2, h3, h4]
  unfold teardownList hasForwardB lookupLP
  rw [h1, hf, h4]

theorem disconnect_hook_ok (env : Env) (s : DuctState)
    (hp : s.prepared = true) (hn : env.disconnectFails = Option.none) :
    disconnect env s =
      ({s with cDisc := s.cDisc + 1, cDiscHook := s.cDiscHook + 1, protoConn := false,
               disconnecting := false, remoteForwards := teardownList s},
       Except.ok RetVal.selfV) := by
  simp [disconnect, hp, hn]
  exact teardownList_congr _ _ rfl rfl rfl rfl

theorem disconnect_frames (env : Env) (s : DuctState) :
    (disconnect env s).1.cHook = s.cHook ∧
    (disconnect env s).1.cPrep = s.cPrep ∧
    (disconnect env s).1.cWarn = s.cWarn ∧
    (disconnect env s).1.cPromptU = s.cPromptU ∧
    (disconnect env s).1.cPromptP = s.cPromptP ∧
    (disconnect env s).1.prepared = s.prepared ∧
    (disconnect env s).1.getting = s.getting ∧
    (disconnect env s).1.snapshot = s.snapshot ∧
    (disconnect env s).1.cachedUser = s.cachedUser ∧
    (disconnect env s).1.cachedPass = s.cachedPass ∧
    (disconnect env s).1.hostRaw = s.hostRaw ∧
    (disconnect env s).1.portRaw = s.portRaw ∧
    (disconnect env s).1.usernameRaw = s.usernameRaw ∧
    (disconnect env s).1.passwordRaw = s.passwordRaw ∧
    (disconnect env s).1.remoteV = s.remoteV ∧
    (disconnect env s).1.cacheV = s.cacheV ∧
    (disconnect env s).1.registryV = s.registryV := by
  cases hp : s.prepared
  · rw [disconnect_not_prepared env s hp]; simp [hp]
  · cases hf : env.disconnectFails
    · rw [disconnect_hook_ok env s hp hf]; simp [hp]
    · rw [disconnect_hook_fails env s _ hp hf]; simp [hp]

theorem disconnect_disconnecting_false (env : Env) (s : DuctState)
    (h : s.disconnecting = false) : (disconnect env s).1.disconnecting = false := by
  cases hp : s.prepared
  · rw [disconnect_not_prepared env s hp]; simpa using h
  · cases hf : env.disconnectFails
    · rw [disconnect_hook_ok env s hp hf]
    · rw [disconnect_hook_fails env s _ hp hf]

theorem disconnect_protoConn_false (env : Env) (s : DuctState)
    (h : s.protoConn = false) : (disconnect env s).1.protoConn = false := by
  cases hp : s.prepared
  · rw [disconnect_not_prepared env s hp]; simpa using h
  · cases hf : env.disconnectFails
    · rw [disconnect_hook_ok env s hp hf]
    · rw [disconnect_hook_fails env s _ hp hf]; simpa using h

theorem disconnect_noraise (env : Env) (s : DuctState)
    (hn : env.disconnectFails = Option.none) :
    (disconnect env s).2 = Except.ok (if s.prepared = true then RetVal.selfV else RetVal.noneV) := by
  cases hp : s.prepared
  · rw [disconnect_not_prepared env s hp]; simp [hp]
  · rw [disconnect_hook_ok env s hp hn]; simp [hp]

theorem disconnect_protoConn_ok (env : Env) (s : DuctState)
    (hp : s.prepared = true) (hn : env.disconnectFails = Option.none) :
    (disconnect env s).1.protoConn = false := by
  rw [disconnect_hook_ok env s hp hn]

/-! ### Characterization of `is_connected` -/

theorem is_connected_not_prepared (env : Env) (s : DuctState) (h : s.prepared = false) :
    is_connected env s = (s, Except.ok false) := by
  simp [is_connected, h]

theorem is_connected_true_prepared (env : Env) (s : DuctState)
    (h : (is_connected env s).2 = Except.ok true) : s.prepared = true := by
  cases hp : s.prepared
  · rw [is_connected_not_prepared env s hp] at h; simp at h
  · rfl

theorem is_connected_frames (env : Env) (s : DuctState) :
    (is_connected env s).1.cHook = s.cHook ∧
    (is_connected env s).1.cPrep = s.cPrep ∧
    (is_connected env s).1.cWarn = s.cWarn ∧
    (is_connected env s).1.cPromptU = s.cPromptU ∧
    (is_connected env s).1.cPromptP = s.cPromptP ∧
    (is_connected env s).1.prepared = s.prepared ∧
    (is_connected env s).1.getting = s.getting ∧
    (is_connected env s).1.snapshot = s.snapshot ∧
    (is_connected env s).1.cachedUser = s.cachedUser ∧
    (is_connected env s).1.cachedPass = s.cachedPass ∧
    (is_connected env s).1.hostRaw = s.hostRaw ∧
    (is_connected env s).1.portRaw = s.portRaw ∧
    (is_connected env s).1.usernameRaw = s.usernameRaw ∧
    (is_connected env s).1.passwordRaw = s.passwordRaw ∧
    (is_connected env s).1.remoteV = s.remoteV ∧
    (is_connected env s).1.cacheV = s.cacheV ∧
    (is_connected env s).1.registryV = s.registryV := by
  simp only [is_connected]
  split
  · simp
  · split
    · split
      · simp
      · split
        · rcases hd : disconnect env s with ⟨s1, r1⟩
          have h := disconnect_frames env s
          rw [hd] at h
          cases r1 <;> simp_all
        · simp
    · simp

theorem is_connected_disconnecting_false (env : Env) (s : DuctState)
    (h : s.disconnecting = false) : (is_connected env s).1.disconnecting = false := by
  simp only [is_connected]
  split
  · simpa using h
  · split
    · split
      · simpa using h
      · split
        · rcases hd : disconnect env s with ⟨s1, r1⟩
          have h2 := disconnect_disconnecting_false env s h
          rw [hd] at h2
          cases r1 <;> simp_all
        · simpa using h
    · simpa using h

theorem is_connected_protoConn_false (env : Env) (s : DuctState)
    (h : s.protoConn = false) : (is_connected env s).1.protoConn = false := by
  simp only [is_connected]
  split
  · simpa using h
  · split
    · split
      · simpa using h
      · split
        · rcases hd : disconnect env s with ⟨s1, r1⟩
          have h2 := disconnect_protoConn_false env s h
          rw [hd] at h2
          cases r1 <;> simp_all
        · simpa using h
    · simpa using h

theorem is_connected_false (env : Env) (s : DuctState)
    (hn : env.disconnectFails = Option.none)
    (hpc : s.prepared = true → s.protoConn = false) :
    (is_connected env s).2 = Except.ok false := by
  cases hp : s.prepared
  · rw [is_connected_not_prepared env s hp]
  · have hpc2 := hpc hp
    simp only [is_connected]
    split
    · simp
    · split
      · split
        · simp
        · split
          · rcases hd : disconnect env s with ⟨s1, r1⟩
            have h2 := disconnect_noraise env s hn
            rw [hd] at h2
            cases r1 <;> simp_all
          · simpa using hpc2
      · simpa using hpc2

/-! ### Characterization of `setAttr` -/

theorem rawStore_frames (f : AttrName) (v : Value) (s : DuctState) :
    (rawStore f v s).prepared = s.prepared ∧
    (rawStore f v s).getting = s.getting ∧
    (rawStore f v s).disconnecting = s.disconnecting ∧
    (rawStore f v s).cachedUser = s.cachedUser ∧
    (rawStore f v s).cachedPass = s.cachedPass ∧
    (rawStore f v s).snapshot = s.snapshot ∧
    (rawStore f v s).remoteForwards = s.remoteForwards ∧
    (rawStore f v s).protoConn = s.protoConn ∧
    (rawStore f v s).cHook = s.cHook ∧
    (rawStore f v s).cDiscHook = s.cDiscHook ∧
    (rawStore f v s).cDisc = s.cDisc ∧
    (rawStore f v s).cPrep = s.cPrep ∧
    (rawStore f v s).cPromptU = s.cPromptU ∧
    (rawStore f v s).cPromptP = s.cPromptP ∧
    (rawStore f v s).cWarn = s.cWarn := by
  cases f <;> simp [rawStore]

/-- When the instance does not report connected (in particular whenever
the liveness invariant `prepared → ¬ protoConn` holds and the disconnect
hook does not fail), `__setattr__` reduces to the raw store preceded by
the (side-effect-carrying but guard-not-taken) `is_connected` probe. -/
theorem setAttrMonitor_eq (env : Env) (f : AttrName) (s : DuctState)
    (hn : env.disconnectFails = Option.none)
    (hpc : s.prepared = true → s.protoConn = false) :
    setAttrMonitor env f s =
      ((if s.prepared = true ∧ f ∈ connectionFields then (is_connected env s).1 else s),
       Except.ok ()) := by
  simp only [setAttrMonitor]
  split
  · next hcond =>
    rcases hi : is_connected env s with ⟨s1, r1⟩
    have hf := is_connected_false env s hn hpc
    rw [hi] at hf
    replace hf : r1 = Except.ok false := hf
    subst hf
    simp
  · next hcond => simp [hcond]

theorem setAttr_eq (env : Env) (f : AttrName) (v : Value) (s : DuctState)
    (hn : env.disconnectFails = Option.none)
    (hpc : s.prepared = true → s.protoConn = false) :
    setAttr env f v s =
      (rawStore (target f) v
        (if s.prepared = true ∧ f ∈ connectionFields then (is_connected env s).1 else s),
       Except.ok ()) := by
  rw [setAttr, setAttrMonitor_eq env f s hn hpc]

/-- When the instance reports connected with no side effects, setting a
connection field warns, disconnects, clears `prepared`, then stores. -/
theorem setAttr_connected_eq (env : Env) (f : AttrName) (v : Value) (s : DuctState)
    (hn : env.disconnectFails = Option.none)
    (Hc : is_connected env s = (s, Except.ok true)) (hcf : f ∈ connectionFields) :
    setAttr env f v s =
      (rawStore (target f) v
        {s with cWarn := s.cWarn + 1, cDisc := s.cDisc + 1, cDiscHook := s.cDiscHook + 1,
                protoConn := false, disconnecting := false, prepared := false,
                remoteForwards := teardownList s},
       Except.ok ()) := by
  have hp : s.prepared = true := is_connected_true_prepared env s (by rw [Hc])
  have hd := disconnect_hook_ok env {s with cWarn := s.cWarn + 1} hp hn
  have ht : teardownList {s with cWarn := s.cWarn + 1} = teardownList s :=
    teardownList_congr _ _ rfl rfl rfl rfl
  rw [ht] at hd
  have hmon : setAttrMonitor env f s =
      ({s with cWarn := s.cWarn + 1, cDisc := s.cDisc + 1, cDiscHook := s.cDiscHook + 1,
               protoConn := false, disconnecting := false, prepared := false,
               remoteForwards := teardownList s},
       Except.ok ()) := by
    simp only [setAttrMonitor]
    rw [if_pos ⟨hp, hcf⟩, Hc]
    simp only [bindE_ok, if_pos]
    rw [hd]
    simp
  rw [setAttr, hmon]

/-! ### The restore loop of `reset` -/

/-- Facts preserved by the restore loop of `reset` between a state and a
later state of the loop. -/
def RestoreInv (s t : DuctState) : Prop :=
  t.snapshot = s.snapshot ∧ t.cachedUser = s.cachedUser ∧ t.cachedPass = s.cachedPass ∧
  t.prepared = s.prepared ∧ t.getting = s.getting ∧ t.cHook = s.cHook ∧ t.cPrep = s.cPrep ∧
  (s.disconnecting = false → t.disconnecting = false) ∧ s.cDisc ≤ t.cDisc

theorem restoreInv_refl (s : DuctState) : RestoreInv s s := by
  refine ⟨rfl, rfl, rfl, rfl, rfl, rfl, rfl, fun h => h, le_refl _⟩

theorem restoreInv_trans (s t u : DuctState) (h1 : RestoreInv s t) (h2 : RestoreInv t u) :
    RestoreInv s u := by
  obtain ⟨a1, a2, a3, a4, a5, a6, a7, a8, a9⟩ := h1
  obtain ⟨b1, b2, b3, b4, b5, b6, b7, b8, b9⟩ := h2
  exact ⟨b1.trans a1, b2.trans a2, b3.trans a3, b4.trans a4, b5.trans a5, b6.trans a6,
    b7.trans a7, fun h => b8 (a8 h), le_trans a9 b9⟩

/-- The probe state inside `setAttr_eq`'s right-hand side keeps every raw
slot and the restore-loop invariants. -/
theorem probe_state_facts (env : Env) (f : AttrName) (s : DuctState) :
    RestoreInv s (if s.prepared = true ∧ f ∈ connectionFields then (is_connected env s).1 else s) ∧
    (∀ g, readRaw g (if s.prepared = true ∧ f ∈ connectionFields then (is_connected env s).1 else s)
       = readRaw g s) ∧
    (s.protoConn = false →
      (if s.prepared = true ∧ f ∈ connectionFields then (is_connected env s).1 else s).protoConn
        = false) := by
  split
  · obtain ⟨i1, i2, i3, i4, i5, i6, i7, i8, i9, i10, i11, i12, i13, i14, i15, i16, i17⟩ :=
      is_connected_frames env s
    refine ⟨⟨i8, i9, i10, i6, i7, i1, i2, fun h => is_connected_disconnecting_false env s h, ?_⟩,
      ?_, fun h => is_connected_protoConn_false env s h⟩
    · cases hp : s.prepared
      · rw [is_connected_not_prepared env s hp]
      · cases hf : env.disconnectFails
        · simp only [is_connected]
          split
          · simp
          · split
            · split
              · simp
              · split
                · rw [disconnect_hook_ok env s hp hf]; simp
                · simp
            · simp
        · simp only [is_connected]
          split
          · simp
          · split
            · split
              · simp
              · split
                · rw [disconnect_hook_fails env s _ hp hf]; simp
                · simp
            · simp
    · intro g; cases g <;> simp [readRaw, i11, i12, i13, i14, i15, i16, i17]
  · exact ⟨restoreInv_refl s, fun g => rfl, fun h => h⟩

theorem rawStore_restoreInv (f : AttrName) (v : Value) (s : DuctState) :
    RestoreInv s (rawStore f v s) := by
  obtain ⟨r1, r2, r3, r4, r5, r6, r7, r8, r9, r10, r11, r12, r13, r14, r15⟩ :=
    rawStore_frames f v s
  exact ⟨r6, r4, r5, r1, r2, r9, r12, fun h => r3.trans h, le_of_eq r11.symm⟩

/-- One restore-loop store, under the no-hook-failure and
not-actually-connected side conditions: never raises, keeps the loop
invariant, maintains `protoConn = false`, writes the target slot and
leaves all other slots alone. -/
theorem setAttr_restore_step (env : Env) (f : AttrName) (v : Value) (s : DuctState)
    (hn : env.disconnectFails = Option.none)
    (hpc : s.prepared = true → s.protoConn = false) :
    (setAttr env f v s).2 = Except.ok () ∧
    RestoreInv s (setAttr env f v s).1 ∧
    ((setAttr env f v s).1.prepared = true → (setAttr env f v s).1.protoConn = false) ∧
    readRaw (target f) (setAttr env f v s).1
      = (if target f ∈ snapKeys then v else readRaw (target f) (setAttr env f v s).1) ∧
    (∀ g, g ∈ snapKeys → target f ∈ snapKeys → g ≠ target f →
      readRaw g (setAttr env f v s).1 = readRaw g s) := by
  rw [setAttr_eq env f v s hn hpc]
  obtain ⟨hinv, hslots, hpc2⟩ := probe_state_facts env f s
  set S := if s.prepared = true ∧ f ∈ connectionFields then (is_connected env s).1 else s with hS
  refine ⟨rfl, restoreInv_trans _ _ _ hinv (rawStore_restoreInv _ v _), ?_, ?_, ?_⟩
  · intro hprep
    have hfrp := (rawStore_frames (target f) v S).1
    have hfr := (rawStore_frames (target f) v S).2.2.2.2.2.2.2.1
    rw [hfr]
    rw [hfrp] at hprep
    have hSp : S.prepared = s.prepared := hinv.2.2.2.1
    rw [hSp] at hprep
    exact hpc2 (hpc hprep)
  · split
    · next hmem => exact readRaw_rawStore_self _ v _ hmem
    · rfl
  · intro g hg hf2 hne
    rw [readRaw_rawStore_ne g (target f) v _ hg hf2 hne]
    exact hslots g

theorem restoreAll_facts :
    ∀ (l : List (AttrName × Value)) (env : Env) (s : DuctState),
    env.disconnectFails = Option.none → (s.prepared = true → s.protoConn = false) →
    (restoreAll env l s).2 = Except.ok () ∧
    RestoreInv s (restoreAll env l s).1 ∧
    ((restoreAll env l s).1.prepared = true → (restoreAll env l s).1.protoConn = false)
  | [], env, s, hn, hpc => ⟨rfl, restoreInv_refl s, hpc⟩
  | (f, v) :: rest, env, s, hn, hpc => by
      obtain ⟨h1, h2, h3, _, _⟩ := setAttr_restore_step env f v s hn hpc
      simp only [restoreAll]
      rcases hsa : setAttr env f v s with ⟨s1, r1⟩
      rw [hsa] at h1 h2 h3
      replace h1 : r1 = Except.ok () := h1
      subst h1
      rw [bindE_ok]
      obtain ⟨k1, k2, k3⟩ := restoreAll_facts rest env s1 hn h3
      exact ⟨k1, restoreInv_trans _ _ _ h2 k2, k3⟩

theorem restoreAll_untouched :
    ∀ (l : List (AttrName × Value)) (env : Env) (s : DuctState),
    env.disconnectFails = Option.none → (s.prepared = true → s.protoConn = false) →
    (∀ p ∈ l, p.1 ∈ snapKeys) →
    ∀ g, g ∈ snapKeys → g ∉ l.map Prod.fst →
    readRaw g (restoreAll env l s).1 = readRaw g s
  | [], env, s, hn, hpc, hkeys, g, hg, hnotin => rfl
  | (f, v) :: rest, env, s, hn, hpc, hkeys, g, hg, hnotin => by
      have hf : f ∈ snapKeys := hkeys (f, v) (List.mem_cons_self _ _)
      have hne : g ≠ f := by
        intro h
        exact hnotin (by simp [h])
      obtain ⟨h1, h2, h3, h4, h5⟩ := setAttr_restore_step env f v s hn hpc
      simp only [restoreAll]
      rcases hsa : setAttr env f v s with ⟨s1, r1⟩
      rw [hsa] at h1 h3 h5
      replace h1 : r1 = Except.ok () := h1
      subst h1
      rw [bindE_ok]
      have hrest := restoreAll_untouched rest env s1 hn h3
        (fun p hp => hkeys p (List.mem_cons_of_mem _ hp)) g hg
        (fun h => hnotin (by simp at h ⊢; exact Or.inr h))
      rw [hrest]
      have := h5 g hg (by rw [target_id_of_snapKey f hf]; exact hf)
        (by rw [target_id_of_snapKey f hf]; exact hne)
      exact this

theorem restoreAll_values :
    ∀ (l : List (AttrName × Value)) (env : Env) (s : DuctState),
    env.disconnectFails = Option.none → (s.prepared = true → s.protoConn = false) →
    (∀ p ∈ l, p.1 ∈ snapKeys) → (l.map Prod.fst).Nodup →
    ∀ f v, (f, v) ∈ l → readRaw f (restoreAll env l s).1 = v
  | [], env, s, hn, hpc, hkeys, hnd, f, v, hmem => by simp at hmem
  | (f0, v0) :: rest, env, s, hn, hpc, hkeys, hnd, f, v, hmem => by
      have hf0 : f0 ∈ snapKeys := hkeys (f0, v0) (List.mem_cons_self _ _)
      obtain ⟨h1, h2, h3, h4, h5⟩ := setAttr_restore_step env f0 v0 s hn hpc
      simp only [restoreAll]
      rcases hsa : setAttr env f0 v0 s with ⟨s1, r1⟩
      rw [hsa] at h1 h3 h4
      replace h1 : r1 = Except.ok () := h1
      subst h1
      rw [bindE_ok]
      rcases List.mem_cons.mp hmem with heq | hmem2
      · obtain ⟨hfe, hve⟩ := Prod.mk.injEq f v f0 v0 ▸ heq
        subst hfe; subst hve
        have hnotin : f ∉ rest.map Prod.fst := by
          simpa using (List.nodup_cons.mp hnd).1
        rw [restoreAll_untouched rest env s1 hn h3
          (fun p hp => hkeys p (List.mem_cons_of_mem _ hp)) f hf0 hnotin]
        rw [target_id_of_snapKey f hf0] at h4
        simpa [hf0] using h4
      · exact restoreAll_values rest env s1 hn h3
          (fun p hp => hkeys p (List.mem_cons_of_mem _ hp))
          (List.nodup_cons.mp hnd).2 f v hmem2

theorem disconnect_cDisc (env : Env) (s : DuctState) :
    (disconnect env s).1.cDisc = s.cDisc + 1 := by
  cases hp : s.prepared
  · rw [disconnect_not_prepared env s hp]
  · cases hf : env.disconnectFails
    · rw [disconnect_hook_ok env s hp hf]
    · rw [disconnect_hook_fails env s _ hp hf]

/-- `Duct.reset`, on a quiescent instance with a well-behaved disconnect
hook: it returns `self`, leaves the instance unprepared with the snapshot
and the cached credentials cleared and the guard flags intact, and invokes
`disconnect` (at least once). -/
theorem reset_spec (env : Env) (s : DuctState)
    (hn : env.disconnectFails = Option.none) (hd : s.disconnecting = false) :
    (reset env s).2 = Except.ok RetVal.selfV ∧
    (reset env s).1.prepared = false ∧
    (reset env s).1.snapshot = [] ∧
    (reset env s).1.cachedUser = Option.none ∧
    (reset env s).1.cachedPass = Option.none ∧
    (reset env s).1.disconnecting = false ∧
    (reset env s).1.cHook = s.cHook ∧
    (reset env s).1.getting = s.getting ∧
    s.cDisc + 1 ≤ (reset env s).1.cDisc := by
  simp only [reset]
  have hnr := disconnect_noraise env s hn
  have hfr := disconnect_frames env s
  have hddisc := disconnect_disconnecting_false env s hd
  have hcd := disconnect_cDisc env s
  rcases hdc : disconnect env s with ⟨s1, r1⟩
  rw [hdc] at hnr hfr hddisc hcd
  replace hnr : r1 = Except.ok (if s.prepared = true then RetVal.selfV else RetVal.noneV) := hnr
  subst hnr
  rw [bindE_ok]
  have hdpc : s1.prepared = true → s1.protoConn = false := by
    intro hp
    have hsp : s.prepared = true := by rw [← hfr.2.2.2.2.2.1]; exact hp
    have := disconnect_protoConn_ok env s hsp hn
    rw [hdc] at this
    exact this
  obtain ⟨k1, k2, k3⟩ := restoreAll_facts s1.snapshot env
    {s1 with cachedUser := Option.none, cachedPass := Option.none} hn hdpc
  rcases hra : restoreAll env s1.snapshot
      {s1 with cachedUser := Option.none, cachedPass := Option.none} with ⟨s3, r3⟩
  rw [hra] at k1 k2 k3
  replace k1 : r3 = Except.ok () := k1
  subst k1
  rw [bindE_ok]
  obtain ⟨j1, j2, j3, j4, j5, j6, j7, j8, j9⟩ := k2
  refine ⟨rfl, rfl, rfl, ?_, ?_, ?_, ?_, ?_, ?_⟩
  · simpa using j2
  · simpa using j3
  · simpa using j8 hddisc
  · exact j6.trans hfr.1
  · exact j5.trans hfr.2.2.2.2.2.2.1
  · exact le_trans (le_of_eq (congrArg (fun n => n + 1) rfl).symm |>.trans (le_of_eq rfl))
      (le_trans (le_of_eq hcd.symm) j9)

/-! ### Frame lemmas for preparation and attribute access -/

theorem bindE_presP {α β : Type} (P : DuctState → Prop)
    (r : DuctState × Except Err α) (k : α → DuctState → DuctState × Except Err β)
    (h1 : P r.1) (h2 : ∀ a s, P s → P (k a s).1) : P (bindE r k).1 := by
  rcases r with ⟨s, x⟩
  cases x
  · exact h1
  · exact h2 _ _ h1

theorem catchE_presP {α : Type} (P : DuctState → Prop)
    (r : DuctState × Except Err α) (h : Err → DuctState → DuctState × Except Err α)
    (h1 : P r.1) (h2 : ∀ e s, P s → P (h e s).1) : P (catchE r h).1 := by
  rcases r with ⟨s, x⟩
  cases x
  · exact h2 _ _ h1
  · exact h1

/-- The state fields untouched by the whole of `_prepare` (counters other
than `cPrep`, the guard flags, the prepared flag, credentials cache and
the protocol-level connection). -/
def QuietEq (s t : DuctState) : Prop :=
  t.cHook = s.cHook ∧ t.prepared = s.prepared ∧ t.getting = s.getting ∧
  t.disconnecting = s.disconnecting ∧ t.cDisc = s.cDisc ∧ t.cDiscHook = s.cDiscHook ∧
  t.cWarn = s.cWarn ∧ t.cachedUser = s.cachedUser ∧ t.cachedPass = s.cachedPass ∧
  t.cPromptU = s.cPromptU ∧ t.cPromptP = s.cPromptP ∧ t.protoConn = s.protoConn ∧
  t.remoteForwards = s.remoteForwards ∧ t.cPrep = s.cPrep

theorem quietEq_refl (s : DuctState) : QuietEq s s :=
  ⟨rfl, rfl, rfl, rfl, rfl, rfl, rfl, rfl, rfl, rfl, rfl, rfl, rfl, rfl⟩

theorem quietEq_trans {s t u : DuctState} (h1 : QuietEq s t) (h2 : QuietEq t u) :
    QuietEq s u := by
  obtain ⟨a1, a2, a3, a4, a5, a6, a7, a8, a9, a10, a11, a12, a13, a14⟩ := h1
  obtain ⟨b1, b2, b3, b4, b5, b6, b7, b8, b9, b10, b11, b12, b13, b14⟩ := h2
  exact ⟨b1.trans a1, b2.trans a2, b3.trans a3, b4.trans a4, b5.trans a5, b6.trans a6,
    b7.trans a7, b8.trans a8, b9.trans a9, b10.trans a10, b11.trans a11, b12.trans a12,
    b13.trans a13, b14.trans a14⟩

theorem lookupRemoteStage_quiet (env : Env) (s : DuctState) :
    QuietEq s (lookupRemoteStage env s) := by
  simp only [lookupRemoteStage]
  repeat' split
  all_goals
    first
    | exact quietEq_refl _
    | exact ⟨rfl, rfl, rfl, rfl, rfl, rfl, rfl, rfl, rfl, rfl, rfl, rfl, rfl, rfl⟩

theorem lookupCacheStage_quiet (env : Env) (s : DuctState) :
    QuietEq s (lookupCacheStage env s) := by
  simp only [lookupCacheStage]
  repeat' split
  all_goals
    first
    | exact quietEq_refl _
    | exact ⟨rfl, rfl, rfl, rfl, rfl, rfl, rfl, rfl, rfl, rfl, rfl, rfl, rfl, rfl⟩

theorem lookupStage_quiet (env : Env) (s : DuctState) : QuietEq s (lookupStage env s) := by
  simp only [lookupStage]
  split
  · exact quietEq_refl _
  · exact quietEq_trans (lookupRemoteStage_quiet env s)
      (lookupCacheStage_quiet env (lookupRemoteStage env s))

theorem rawStore_quiet (f : AttrName) (v : Value) (s : DuctState) :
    QuietEq s (rawStore f v s) := by
  cases f <;>
    exact ⟨rfl, rfl, rfl, rfl, rfl, rfl, rfl, rfl, rfl, rfl, rfl, rfl, rfl, rfl⟩

theorem resolveField_quiet (f : AttrName) (s : DuctState) :
    QuietEq s (resolveField f s).1 := by
  simp only [resolveField]
  repeat' split
  all_goals
    first
    | exact quietEq_refl _
    | exact ⟨rfl, rfl, rfl, rfl, rfl, rfl, rfl, rfl, rfl, rfl, rfl, rfl, rfl, rfl⟩
    | exact quietEq_trans
        (⟨rfl, rfl, rfl, rfl, rfl, rfl, rfl, rfl, rfl, rfl, rfl, rfl, rfl, rfl⟩ :
          QuietEq s {s with snapshot := snapInsert f (readRaw f s) s.snapshot})
        (rawStore_quiet f _ _)

theorem resolveFields_quiet (s : DuctState) : QuietEq s (resolveFields s).1 := by
  simp only [resolveFields]
  refine bindE_presP (QuietEq s) _ _ (resolveField_quiet _ s) ?_
  intro a t ht
  refine bindE_presP (QuietEq s) _ _ (quietEq_trans ht (resolveField_quiet _ t)) ?_
  intro a2 t2 ht2
  refine bindE_presP (QuietEq s) _ _ (quietEq_trans ht2 (resolveField_quiet _ t2)) ?_
  intro a3 t3 ht3
  exact quietEq_trans ht3 (resolveField_quiet _ t3)

theorem hostListStage_quiet (env : Env) (s : DuctState) :
    QuietEq s (hostListStage env s) := by
  simp only [hostListStage]
  repeat' split
  all_goals
    first
    | exact quietEq_refl _
    | exact ⟨rfl, rfl, rfl, rfl, rfl, rfl, rfl, rfl, rfl, rfl, rfl, rfl, rfl, rfl⟩

theorem splitStage_quiet (s : DuctState) : QuietEq s (splitStage s).1 := by
  simp only [splitStage]
  repeat' split
  all_goals
    first
    | exact quietEq_refl _
    | exact ⟨rfl, rfl, rfl, rfl, rfl, rfl, rfl, rfl, rfl, rfl, rfl, rfl, rfl, rfl⟩

theorem portStage_quiet (s : DuctState) : QuietEq s (portStage s).1 := by
  simp only [portStage]
  repeat' split
  all_goals
    first
    | exact quietEq_refl _
    | exact rawStore_quiet _ _ _

theorem prepareImpl_quiet (env : Env) (s : DuctState) :
    QuietEq {s with cPrep := s.cPrep + 1} (prepareImpl env s).1 := by
  simp only [prepareImpl]
  split
  · exact quietEq_refl _
  · split
    · exact lookupStage_quiet env _
    · split
      · exact lookupStage_quiet env _
      · refine bindE_presP (QuietEq {s with cPrep := s.cPrep + 1}) _ _
          (quietEq_trans (lookupStage_quiet env _) (resolveFields_quiet _)) ?_
        intro a s2 h2
        refine bindE_presP (QuietEq {s with cPrep := s.cPrep + 1}) _ _
          (quietEq_trans (quietEq_trans h2 (hostListStage_quiet env s2))
            (splitStage_quiet _)) ?_
        intro a2 s4 h4
        exact quietEq_trans h4 (portStage_quiet s4)

theorem prepare_quietish (env : Env) (s : DuctState) :
    (prepare env s).1.cHook = s.cHook ∧
    (prepare env s).1.getting = s.getting ∧
    (prepare env s).1.disconnecting = s.disconnecting ∧
    (prepare env s).1.cDisc = s.cDisc ∧
    (prepare env s).1.cWarn = s.cWarn ∧
    (prepare env s).1.cachedUser = s.cachedUser ∧
    (prepare env s).1.cachedPass = s.cachedPass ∧
    (prepare env s).1.cPromptU = s.cPromptU ∧
    (prepare env s).1.cPromptP = s.cPromptP ∧
    (prepare env s).1.protoConn = s.protoConn ∧
    (prepare env s).1.remoteForwards = s.remoteForwards := by
  simp only [prepare]
  split
  · exact ⟨rfl, rfl, rfl, rfl, rfl, rfl, rfl, rfl, rfl, rfl, rfl⟩
  · have hq := prepareImpl_quiet env s
    rcases hp : prepareImpl env s with ⟨s1, r1⟩
    rw [hp] at hq
    obtain ⟨q1, q2, q3, q4, q5, q6, q7, q8, q9, q10, q11, q12, q13, q14⟩ := hq
    cases r1
    · exact ⟨q1, q3, q4, q5, q7, q8, q9, q10, q11, q12, q13⟩
    · exact ⟨q1, q3, q4, q5, q7, q8, q9, q10, q11, q12, q13⟩

theorem prepare_cPrep_unprepared (env : Env) (s : DuctState) (hp : s.prepared = false) :
    (prepare env s).1.cPrep = s.cPrep + 1 := by
  simp only [prepare, hp]
  have hq := prepareImpl_quiet env s
  rcases hpi : prepareImpl env s with ⟨s1, r1⟩
  rw [hpi] at hq
  cases r1
  · exact hq.2.2.2.2.2.2.2.2.2.2.2.2.2
  · exact hq.2.2.2.2.2.2.2.2.2.2.2.2.2

theorem evalProp_frames (env : Env) (f : AttrName) (s : DuctState) :
    (evalProp env f s).1.cHook = s.cHook ∧
    (evalProp env f s).1.disconnecting = s.disconnecting ∧
    (evalProp env f s).1.cDisc = s.cDisc ∧
    (evalProp env f s).1.cWarn = s.cWarn ∧
    (evalProp env f s).1.protoConn = s.protoConn ∧
    (evalProp env f s).1.getting = s.getting ∧
    (evalProp env f s).1.prepared = s.prepared ∧
    (evalProp env f s).1.cPrep = s.cPrep ∧
    (evalProp env f s).1.snapshot = s.snapshot := by
  cases f <;> simp only [evalProp] <;> (repeat' split) <;> simp

theorem getAttr_frames (env : Env) (f : AttrName) (s : DuctState) :
    (getAttr env f s).1.cHook = s.cHook ∧
    (getAttr env f s).1.disconnecting = s.disconnecting ∧
    (getAttr env f s).1.cDisc = s.cDisc ∧
    (getAttr env f s).1.cWarn = s.cWarn ∧
    (getAttr env f s).1.protoConn = s.protoConn := by
  simp only [getAttr]
  split
  · refine catchE_presP
      (fun t => t.cHook = s.cHook ∧ t.disconnecting = s.disconnecting ∧ t.cDisc = s.cDisc ∧
        t.cWarn = s.cWarn ∧ t.protoConn = s.protoConn) _ _ ?_ ?_
    · refine bindE_presP
        (fun t => t.cHook = s.cHook ∧ t.disconnecting = s.disconnecting ∧ t.cDisc = s.cDisc ∧
          t.cWarn = s.cWarn ∧ t.protoConn = s.protoConn) _ _ ?_ ?_
      · obtain ⟨p1, p2, p3, p4, p5, p6, p7, p8, p9, p10, p11⟩ :=
          prepare_quietish env {s with getting := true}
        exact ⟨p1, p3, p4, p5, p10⟩
      · intro a s2 h2
        obtain ⟨e1, e2, e3, e4, e5, _, _, _, _⟩ :=
          evalProp_frames env f {s2 with getting := false}
        exact ⟨e1.trans h2.1, e2.trans h2.2.1, e3.trans h2.2.2.1, e4.trans h2.2.2.2.1,
          e5.trans h2.2.2.2.2⟩
    · intro e s2 h2
      split
      · obtain ⟨e1, e2, e3, e4, e5, _, _, _, _⟩ := evalProp_frames env f s2
        exact ⟨e1.trans h2.1, e2.trans h2.2.1, e3.trans h2.2.2.1, e4.trans h2.2.2.2.1,
          e5.trans h2.2.2.2.2⟩
      · exact h2
  · obtain ⟨e1, e2, e3, e4, e5, _, _, _, _⟩ := evalProp_frames env f s
    exact ⟨e1, e2, e3, e4, e5⟩

/-- Any state predicate preserved by attribute reads and by `disconnect`
is preserved by every stage of the reachability check. -/
theorem reach_presP (env : Env) (P : DuctState → Prop)
    (hget : ∀ f s, P s → P (getAttr env f s).1)
    (hdisc : ∀ s, P s → P (disconnect env s).1) :
    (∀ s, P s → P (hostPortConsistency env s).1) ∧
    (∀ s, P s → P (assertServerReachable env s).1) := by
  have hlocal : ∀ s, P s → P (localUnreachableFail env s).1 := by
    intro s hs
    simp only [localUnreachableFail]
    refine bindE_presP P _ _ (hdisc s hs) ?_
    intro a t ht
    refine bindE_presP P _ _ (hget _ t ht) ?_
    intro a2 t2 ht2
    exact bindE_presP P _ _ (hget _ t2 ht2) (fun a3 t3 ht3 => ht3)
  have hremote : ∀ s, P s → P (remoteUnreachableCheck env s).1 := by
    intro s hs
    simp only [remoteUnreachableCheck]
    refine bindE_presP P _ _ (hget _ s hs) ?_
    intro a t ht
    refine bindE_presP P _ _ (hget _ t ht) ?_
    intro a2 t2 ht2
    split
    · exact bindE_presP P _ _ (hdisc t2 ht2) (fun a3 t3 ht3 => ht3)
    · exact ht2
  have hdispatch : ∀ s, P s → P (unreachDispatch env s).1 := by
    intro s hs
    simp only [unreachDispatch]
    refine bindE_presP P _ _ (hget _ s hs) ?_
    intro a t ht
    split
    · exact hremote t ht
    · exact hlocal t ht
  have hcons : ∀ s, P s → P (hostPortConsistency env s).1 := by
    intro s hs
    simp only [hostPortConsistency]
    refine bindE_presP P _ _ (hget _ s hs) ?_
    intro h1 t ht
    refine bindE_presP P _ _ ?_ ?_
    · split
      · exact ht
      · exact bindE_presP P _ _ (hget _ t ht) (fun p0 t0 ht0 => ht0)
    · intro cond t2 ht2
      split
      · refine bindE_presP P _ _ (hget _ t2 ht2) ?_
        intro h2 t3 ht3
        split
        · exact ht3
        · refine bindE_presP P _ _ (hget _ t3 ht3) ?_
          intro p1 t4 ht4
          split
          · exact ht4
          · exact ht4
      · exact ht2
  refine ⟨hcons, ?_⟩
  intro s hs
  simp only [assertServerReachable]
  refine bindE_presP P _ _ (hcons s hs) ?_
  intro check t ht
  split
  · refine bindE_presP P _ _ (hget _ t ht) ?_
    intro h3 t2 ht2
    refine bindE_presP P _ _ (hget _ t2 ht2) ?_
    intro p2 t3 ht3
    split
    · exact ht3
    · exact hdispatch t3 ht3
  · exact ht

theorem assert_cHook (env : Env) (s : DuctState) (n : Nat) (h : s.cHook = n) :
    (assertServerReachable env s).1.cHook = n :=
  (reach_presP env (fun t => t.cHook = n)
    (fun f u hu => ((getAttr_frames env f u).1).trans hu)
    (fun u hu => ((disconnect_frames env u).1).trans hu)).2 s h

theorem assert_disc_false (env : Env) (s : DuctState) (h : s.disconnecting = false) :
    (assertServerReachable env s).1.disconnecting = false :=
  (reach_presP env (fun t => t.disconnecting = false)
    (fun f u hu => ((getAttr_frames env f u).2.1).trans hu)
    (fun u hu => disconnect_disconnecting_false env u hu)).2 s h

/-- C1: For every client, if the protocol-specific connect hook raises
during `connect()` (the hypothesis `(connect env s).1.cHook ≠ s.cHook`
says the hook was actually invoked during this `connect()` call, the
hypothesis `env.connectFails = some e` says every invocation raises `e`),
then — provided the disconnect hook used by the implicit cleanup does not
itself fail — the client performs a `reset()` (leaving the instance
unprepared and clean: prepared flag false, preparation snapshot and cached
credentials cleared, disconnecting guard clear) and re-raises the original
error `e` unwrapped. -/
theorem claim_C1_connect_hook_failure_resets (env : Env) (s : DuctState) (e : Err)
    (hcf : env.connectFails = some e)
    (hdf : env.disconnectFails = Option.none)
    (hqd : s.disconnecting = false)
    (hreached : (connect env s).1.cHook ≠ s.cHook) :
    (connect env s).2 = Except.error e ∧
    (connect env s).1.prepared = false ∧
    (connect env s).1.snapshot = [] ∧
    (connect env s).1.cachedUser = Option.none ∧
    (connect env s).1.cachedPass = Option.none ∧
    (connect env s).1.disconnecting = false := by
  obtain ⟨g1, g2, g3, g4, g5⟩ := getAttr_frames env AttrName.host s
  rcases hg : getAttr env AttrName.host s with ⟨s1, r1⟩
  rw [hg] at g1 g2
  cases r1 with
  | error e1 =>
    have hc : connect env s = (s1, Except.error e1) := by
      simp only [connect, hg, bindE_error]
    rw [hc] at hreached
    exact absurd g1 hreached
  | ok v1 =>
    have a1 := assert_cHook env s1 s.cHook g1
    have a2 := assert_disc_false env s1 (g2.trans hqd)
    rcases ha : assertServerReachable env s1 with ⟨s2, r2⟩
    rw [ha] at a1 a2
    cases r2 with
    | error e2 =>
      have hc : connect env s = (s2, Except.error e2) := by
        simp only [connect, hg, bindE_ok, ha, bindE_error]
      rw [hc] at hreached
      exact absurd a1 hreached
    | ok v2 =>
      obtain ⟨i1, _, _, _, _, _, _, _, _, _, _, _, _, _, _, _, _⟩ := is_connected_frames env s2
      have i2 := is_connected_disconnecting_false env s2 a2
      rcases hi : is_connected env s2 with ⟨s3, r3⟩
      rw [hi] at i1 i2
      cases r3 with
      | error e3 =>
        have hc : connect env s = (s3, Except.error e3) := by
          simp only [connect, hg, bindE_ok, ha, hi, bindE_error]
        rw [hc] at hreached
        exact absurd (i1.trans a1) hreached
      | ok c =>
        cases c with
        | true =>
          obtain ⟨g1b, _, _, _, _⟩ := getAttr_frames env AttrName.host s3
          rcases hg2 : getAttr env AttrName.host s3 with ⟨s7, r7⟩
          rw [hg2] at g1b
          have hc : connect env s = (s7, (match r7 with
              | Except.ok _ => Except.ok RetVal.selfV
              | Except.error e7 => Except.error e7)) := by
            cases r7 <;>
              simp only [connect, hg, bindE_ok, ha, hi, hg2, bindE_error, if_pos]
          rw [hc] at hreached
          exact absurd (g1b.trans (i1.trans a1)) hreached
        | false =>
          have hhook : connectHook env s3 = ({s3 with cHook := s3.cHook + 1}, Except.error e) := by
            simp [connectHook, hcf]
          obtain ⟨t1, t2, t3, t4, t5, t6, t7, t8, t9⟩ :=
            reset_spec env {s3 with cHook := s3.cHook + 1} hdf i2
          rcases hr : reset env {s3 with cHook := s3.cHook + 1} with ⟨s5, r5⟩
          rw [hr] at t1 t2 t3 t4 t5 t6
          replace t1 : r5 = Except.ok RetVal.selfV := t1
          subst t1
          have hc : connect env s = (s5, Except.error e) := by
            simp only [connect, hg, bindE_ok, ha, hi, Bool.false_eq_true, if_false, hhook,
              catchE_error, hr, bindE_ok, bindE_error]
          rw [hc]
          exact ⟨rfl, t2, t3, t4, t5, t6⟩

/-! ### Concrete environments and instances for witnesses and counterexamples -/

/-- A well-behaved external world: every port bound, hooks succeed. -/
def envW : Env :=
  { localPortBound := fun _ _ => true
    remoteBound := fun _ _ => true
    connectFails := Option.none
    disconnectFails := Option.none
    promptUser := "alice"
    promptPass := "hunter2"
    osLogin := "login"
    lookupRemote := fun _ => Value.obj "remote"
    lookupCache := fun _ => Value.obj "cache"
    loadBalance := fun xs _ => match xs with | [] => Value.none | x :: _ => Value.str x
    freshPort := 9000 }

/-- `envW` with a failing `_connect` hook. -/
def envConnFail : Env := {envW with connectFails := some (Err.custom 7)}

/-- `envW` with a failing `_disconnect` hook. -/
def envDiscFail : Env := {envW with disconnectFails := some (Err.custom 3)}

/-- A client constructed with no configuration at all. -/
def sBlank : DuctState :=
  initDuct Value.none Value.none Value.none Value.none Value.none Value.none Value.none

/-- A client whose `host` was given as a callable that raises
`AttributeError` when invoked during preparation. -/
def sAttrBug : DuctState :=
  initDuct (Value.callableErr Err.attributeError) (Value.int 1234)
    Value.none Value.none Value.none Value.none Value.none

/-- A prepared, connected client with an attached remote holding a live
port-forward for its host/port. -/
def sFwd : DuctState :=
  { initDuct (Value.str "h") (Value.int 5) Value.none Value.none
      (Value.obj "remote") Value.none Value.none with
    prepared := true
    remoteForwards := [(Value.str "h", Value.int 5, 100)]
    protoConn := true }

/-- C1 witness: a blank client with a failing connect hook reaches the
hook, errors with the original error, and is left reset. -/
theorem claim_C1_witness :
    envConnFail.connectFails = some (Err.custom 7) ∧
    envConnFail.disconnectFails = Option.none ∧
    sBlank.disconnecting = false ∧
    (connect envConnFail sBlank).1.cHook ≠ sBlank.cHook ∧
    ((connect envConnFail sBlank).2 = Except.error (Err.custom 7) ∧
     (connect envConnFail sBlank).1.prepared = false ∧
     (connect envConnFail sBlank).1.snapshot = [] ∧
     (connect envConnFail sBlank).1.cachedUser = Option.none ∧
     (connect envConnFail sBlank).1.cachedPass = Option.none ∧
     (connect envConnFail sBlank).1.disconnecting = false) :=
  ⟨rfl, rfl, rfl, by decide,
   claim_C1_connect_hook_failure_resets envConnFail sBlank (Err.custom 7) rfl rfl rfl
     (by decide)⟩

/-- C2: the claim fails on the code. A client whose host callable raises
`AttributeError` during triggered preparation is left with the
`__getting` guard permanently set and `__prepared` false (see C4), so two
consecutive `connect()` calls — both returning normally, with no
`disconnect()` invocation of any kind in between (`cDisc = 0`) — each
consult `is_connected()` (which reports `False` because the instance
never became prepared) and each invoke the `_connect` hook: the hook runs
twice, not at most once. -/
theorem claim_C2_double_connect_invokes_hook_twice :
    (connect envW sAttrBug).2 = Except.ok RetVal.selfV ∧
    (connect envW (connect envW sAttrBug).1).2 = Except.ok RetVal.selfV ∧
    (connect envW (connect envW sAttrBug).1).1.cDisc = 0 ∧
    (connect envW (connect envW sAttrBug).1).1.cHook = 2 :=
  ⟨rfl, rfl, rfl, rfl⟩

/-- C4: the claim fails on the code. When `prepare()` raises
`AttributeError` during triggered attribute access (here: the host
callable raises it), the `except AttributeError: pass` handler of
`Duct.__getattribute__` swallows the error without clearing the
`__getting` guard: the attribute read returns normally, but the
triggered-access guard is left set (and the instance is left unprepared,
so auto-preparation is permanently disabled). The disconnecting guard set
by `disconnect()` is, in contrast, cleared in a `finally` clause. -/
theorem claim_C4_getting_guard_leaked :
    (getAttr envW AttrName.host sAttrBug).1.getting = true ∧
    (getAttr envW AttrName.host sAttrBug).1.prepared = false ∧
    (getAttr envW AttrName.host sAttrBug).2
      = Except.ok (Value.callableErr Err.attributeError) :=
  ⟨rfl, rfl, rfl⟩

/-- C3 counterexample: the claim as stated is false. On a prepared client
with a live tunnel forward for its host/port, a failing disconnect hook
propagates its error and the guard is cleared, but the forward is *not*
torn down (the teardown sits inside the `try` body, not in the `finally`
clause); moreover `disconnect()` on an unprepared client returns `None`,
not `self`. -/
theorem claim_C3_counterexample :
    (disconnect envDiscFail sFwd).2 = Except.error (Err.custom 3) ∧
    (disconnect envDiscFail sFwd).1.disconnecting = false ∧
    (disconnect envDiscFail sFwd).1.remoteForwards = [(Value.str "h", Value.int 5, 100)] ∧
    (disconnect envW sBlank).2 = Except.ok RetVal.noneV :=
  ⟨rfl, rfl, rfl, rfl⟩

/-- C3 (amended): `disconnect()` is a no-op returning `None` (not `self`)
when not prepared; when prepared, the disconnecting guard flag is cleared
on all exit paths and a failure of the protocol-specific disconnect hook
still propagates to the caller unwrapped, but the tunnel port-forward
teardown for this host/port happens only when the hook succeeds — on hook
failure the forward is left in place. -/
theorem claim_C3_disconnect_spec (env : Env) (s : DuctState) (e : Err) :
    (s.prepared = false →
      disconnect env s = ({s with cDisc := s.cDisc + 1}, Except.ok RetVal.noneV)) ∧
    (s.prepared = true → env.disconnectFails = some e →
      disconnect env s =
        ({s with cDisc := s.cDisc + 1, cDiscHook := s.cDiscHook + 1, disconnecting := false},
         Except.error e)) ∧
    (s.prepared = true → env.disconnectFails = Option.none →
      disconnect env s =
        ({s with cDisc := s.cDisc + 1, cDiscHook := s.cDiscHook + 1, protoConn := false,
                 disconnecting := false, remoteForwards := teardownList s},
         Except.ok RetVal.selfV)) :=
  ⟨fun hp => disconnect_not_prepared env s hp,
   fun hp hf => disconnect_hook_fails env s e hp hf,
   fun hp hn => disconnect_hook_ok env s hp hn⟩

/-- C3 witness: the amended specification applied to concrete clients. -/
theorem claim_C3_witness :
    (disconnect envW sBlank).2 = Except.ok RetVal.noneV ∧
    (disconnect envDiscFail sFwd).1.disconnecting = false ∧
    (disconnect envW sFwd).1.remoteForwards = [] ∧
    (disconnect envW sFwd).2 = Except.ok RetVal.selfV := by
  refine ⟨?_, ?_, ?_, ?_⟩
  · rw [(claim_C3_disconnect_spec envW sBlank (Err.custom 3)).1 rfl]
  · rw [(claim_C3_disconnect_spec envDiscFail sFwd (Err.custom 3)).2.1 rfl rfl]
  · rw [(claim_C3_disconnect_spec envW sFwd (Err.custom 3)).2.2 rfl rfl]
    rfl
  · rw [(claim_C3_disconnect_spec envW sFwd (Err.custom 3)).2.2 rfl rfl]

theorem getAttr_cPrep_trigger (env : Env) (f : AttrName) (s : DuctState)
    (h1 : s.prepared = false) (h2 : s.getting = false) (h3 : s.disconnecting = false)
    (h4 : f ∈ prepareTriggers) :
    (getAttr env f s).1.cPrep = s.cPrep + 1 := by
  simp only [getAttr]
  rw [if_pos ⟨h1, h2, h3, h4⟩]
  refine catchE_presP (fun t => t.cPrep = s.cPrep + 1) _ _ ?_ ?_
  · refine bindE_presP (fun t => t.cPrep = s.cPrep + 1) _ _ ?_ ?_
    · exact prepare_cPrep_unprepared env {s with getting := true} h1
    · intro a t ht
      exact ((evalProp_frames env f {t with getting := false}).2.2.2.2.2.2.2.1).trans ht
  · intro e t ht
    split
    · exact ((evalProp_frames env f t).2.2.2.2.2.2.2.1).trans ht
    · exact ht

/-- C5: For a prepared client that currently reports connected (with no
cleanup side effects: `is_connected` returns `true` leaving the state
unchanged), and whose disconnect hook succeeds, assigning a new value to
`host` logs exactly one warning, invokes `disconnect()` exactly once and
clears the prepared flag, and the new value is stored (in the backing
`_host` slot, via the property setter) — so that a subsequent access to
`host` re-triggers `prepare()` (the `_prepare` hook runs again). -/
theorem claim_C5_set_host_while_connected (env : Env) (v : Value) (s : DuctState)
    (hn : env.disconnectFails = Option.none)
    (Hc : is_connected env s = (s, Except.ok true))
    (hg : s.getting = false) :
    (setAttr env AttrName.host v s).2 = Except.ok () ∧
    (setAttr env AttrName.host v s).1.cWarn = s.cWarn + 1 ∧
    (setAttr env AttrName.host v s).1.cDisc = s.cDisc + 1 ∧
    (setAttr env AttrName.host v s).1.prepared = false ∧
    (setAttr env AttrName.host v s).1.hostRaw = v ∧
    (getAttr env AttrName.host (setAttr env AttrName.host v s).1).1.cPrep = s.cPrep + 1 := by
  have hs := setAttr_connected_eq env AttrName.host v s hn Hc (by simp [connectionFields])
  rw [hs]
  refine ⟨rfl, rfl, rfl, rfl, rfl, ?_⟩
  exact getAttr_cPrep_trigger env AttrName.host _ rfl hg rfl (by simp [prepareTriggers])

/-- C5 witness: a concrete connected client. -/
theorem claim_C5_witness :
    is_connected envW sFwd = (sFwd, Except.ok true) ∧
    ((setAttr envW AttrName.host (Value.str "h2") sFwd).2 = Except.ok () ∧
     (setAttr envW AttrName.host (Value.str "h2") sFwd).1.cWarn = sFwd.cWarn + 1 ∧
     (setAttr envW AttrName.host (Value.str "h2") sFwd).1.cDisc = sFwd.cDisc + 1 ∧
     (setAttr envW AttrName.host (Value.str "h2") sFwd).1.prepared = false ∧
     (setAttr envW AttrName.host (Value.str "h2") sFwd).1.hostRaw = Value.str "h2" ∧
     (getAttr envW AttrName.host
       (setAttr envW AttrName.host (Value.str "h2") sFwd).1).1.cPrep = sFwd.cPrep + 1) :=
  ⟨rfl, claim_C5_set_host_while_connected envW (Value.str "h2") sFwd rfl rfl rfl⟩

theorem target_mem_snapKeys_of_connectionField (f : AttrName) (hf : f ∈ connectionFields) :
    target f ∈ snapKeys := by
  fin_cases hf <;> simp [target, snapKeys]

/-- C10: For a prepared client that does not currently report connected
(`is_connected` returns `false` with no side effects), assigning a value
to a connection field stores it directly (into the backing slot for the
property fields): no `disconnect` happens, the prepared flag stays true,
and a subsequent access does not re-run `_prepare` — in particular, for
`host` on a tunnel-less client, the newly assigned value (even a callable)
is returned raw, with none of the preparation steps applied. -/
theorem claim_C10_set_while_disconnected (env : Env) (f : AttrName) (v : Value)
    (s : DuctState) (hf : f ∈ connectionFields) (hp : s.prepared = true)
    (Hc : is_connected env s = (s, Except.ok false)) :
    setAttr env f v s = (rawStore (target f) v s, Except.ok ()) ∧
    (rawStore (target f) v s).prepared = true ∧
    (rawStore (target f) v s).cDisc = s.cDisc ∧
    readRaw (target f) (rawStore (target f) v s) = v ∧
    (getAttr env f (rawStore (target f) v s)).1.cPrep = s.cPrep ∧
    (getAttr env f (rawStore (target f) v s)).1.prepared = true ∧
    (f = AttrName.host → pyTruthy s.remoteV = false →
      (getAttr env f (rawStore (target f) v s)).2 = Except.ok v) := by
  have hstore : setAttr env f v s = (rawStore (target f) v s, Except.ok ()) := by
    simp only [setAttr, setAttrMonitor]
    rw [if_pos ⟨hp, hf⟩, Hc]
    simp
  obtain ⟨r1, r2, r3, r4, r5, r6, r7, r8, r9, r10, r11, r12, r13, r14, r15⟩ :=
    rawStore_frames (target f) v s
  have hp2 : (rawStore (target f) v s).prepared = true := r1.trans hp
  have hplain : getAttr env f (rawStore (target f) v s) =
      ((evalProp env f (rawStore (target f) v s)).1,
       Except.ok (evalProp env f (rawStore (target f) v s)).2) := by
    simp only [getAttr]
    rw [if_neg]
    intro hcond
    rw [hp2] at hcond
    exact absurd hcond.1 (by simp)
  refine ⟨hstore, hp2, r11, readRaw_rawStore_self _ v s
    (target_mem_snapKeys_of_connectionField f hf), ?_, ?_, ?_⟩
  · rw [hplain]
    exact ((evalProp_frames env f _).2.2.2.2.2.2.2.1).trans r12
  · rw [hplain]
    exact ((evalProp_frames env f _).2.2.2.2.2.2.1).trans hp2
  · intro hfh hrem
    subst hfh
    rw [hplain]
    have h1 : (rawStore (target AttrName.host) v s).remoteV = s.remoteV := rfl
    have h2 : (rawStore (target AttrName.host) v s).hostRaw = v := rfl
    simp [evalProp, h1, h2, hrem]

/-- C10 witness: a prepared, disconnected, tunnel-less client; the stored
value is a callable and is returned unresolved. -/
theorem claim_C10_witness :
    Value.callable (Value.str "lazy") = Value.callable (Value.str "lazy") ∧
    AttrName.host ∈ connectionFields ∧
    ({sFwd with remoteV := Value.none, protoConn := false}.prepared = true) ∧
    is_connected envW {sFwd with remoteV := Value.none, protoConn := false}
      = ({sFwd with remoteV := Value.none, protoConn := false}, Except.ok false) ∧
    (setAttr envW AttrName.host (Value.callable (Value.str "lazy"))
        {sFwd with remoteV := Value.none, protoConn := false}
      = (rawStore AttrName.hostRaw (Value.callable (Value.str "lazy"))
          {sFwd with remoteV := Value.none, protoConn := false}, Except.ok ())) ∧
    (getAttr envW AttrName.host
      (rawStore AttrName.hostRaw (Value.callable (Value.str "lazy"))
        {sFwd with remoteV := Value.none, protoConn := false})).2
      = Except.ok (Value.callable (Value.str "lazy")) := by
  have h := claim_C10_set_while_disconnected envW AttrName.host
    (Value.callable (Value.str "lazy")) {sFwd with remoteV := Value.none, protoConn := false}
    (by simp [connectionFields]) rfl rfl
  exact ⟨rfl, by simp [connectionFields], rfl, rfl, h.1, h.2.2.2.2.2.2 rfl rfl⟩

theorem getAttr_prepared (env : Env) (f : AttrName) (s : DuctState) (hp : s.prepared = true) :
    getAttr env f s = ((evalProp env f s).1, Except.ok (evalProp env f s).2) := by
  simp only [getAttr]
  rw [if_neg]
  intro hcond
  rw [hp] at hcond
  exact absurd hcond.1 (by simp)

theorem evalProp_host_plain (env : Env) (s : DuctState)
    (hrem : pyTruthy s.remoteV = false) : evalProp env AttrName.host s = (s, s.hostRaw) := by
  simp [evalProp, hrem]

theorem evalProp_port_plain (env : Env) (s : DuctState)
    (hrem : pyTruthy s.remoteV = false) : evalProp env AttrName.port s = (s, s.portRaw) := by
  simp [evalProp, hrem]

/-- C6: the reachability check at the start of `connect()`, on a prepared
tunnel-less client: (1) when the effective host and port are both `None`
the check is skipped and the state is untouched, so `connect` proceeds;
(2) when exactly one of host/port is set it fails with the corresponding
configuration `ValueError`; (3) when both are set but the local endpoint
is not bound, the client disconnects and fails with the local-unreachable
`DuctServerUnreachable` error naming the host and port. -/
theorem claim_C6_reachability_check (env : Env) (s : DuctState)
    (hp : s.prepared = true) (hrem : pyTruthy s.remoteV = false) :
    (s.hostRaw = Value.none → s.portRaw = Value.none →
      assertServerReachable env s = (s, Except.ok ())) ∧
    (s.hostRaw = Value.none → s.portRaw ≠ Value.none →
      assertServerReachable env s
        = (s, Except.error (Err.valueError "Port specified but no host provided."))) ∧
    (s.hostRaw ≠ Value.none → s.portRaw = Value.none →
      assertServerReachable env s
        = (s, Except.error (Err.valueError "Host specified but no port specified."))) ∧
    (s.hostRaw ≠ Value.none → s.portRaw ≠ Value.none →
      env.localPortBound s.hostRaw s.portRaw = false →
      env.disconnectFails = Option.none →
      assertServerReachable env s
        = ((disconnect env s).1,
           Except.error (Err.ductServerUnreachable
             (localUnreachableMsg s.hostRaw s.portRaw)))) := by
  have hH : getAttr env AttrName.host s = (s, Except.ok s.hostRaw) := by
    rw [getAttr_prepared env _ s hp, evalProp_host_plain env s hrem]
  have hP : getAttr env AttrName.port s = (s, Except.ok s.portRaw) := by
    rw [getAttr_prepared env _ s hp, evalProp_port_plain env s hrem]
  have hR : getAttr env AttrName.remote s = (s, Except.ok s.remoteV) := by
    rw [getAttr_prepared env _ s hp]
    rfl
  refine ⟨?_, ?_, ?_, ?_⟩
  · intro hh hpo
    simp [assertServerReachable, hostPortConsistency, hH, hP, hh, hpo]
  · intro hh hpo
    simp [assertServerReachable, hostPortConsistency, hH, hP, hh, hpo]
  · intro hh hpo
    simp [assertServerReachable, hostPortConsistency, hH, hP, hh, hpo]
  · intro hh hpo hb hn
    obtain ⟨f1, _, _, _, _, f6, _, _, _, _, f11, f12, _, _, f15, _, _⟩ :=
      disconnect_frames env s
    have hnr := disconnect_noraise env s hn
    rcases hd : disconnect env s with ⟨t, rr⟩
    rw [hd] at hnr f6 f11 f12 f15
    replace hnr : rr = Except.ok (if s.prepared = true then RetVal.selfV else RetVal.noneV) := hnr
    subst hnr
    have htp : t.prepared = true := f6.trans hp
    have htrem : pyTruthy t.remoteV = false := by rw [f15]; exact hrem
    have hHt : getAttr env AttrName.host t = (t, Except.ok s.hostRaw) := by
      rw [getAttr_prepared env _ t htp, evalProp_host_plain env t htrem, f11]
    have hPt : getAttr env AttrName.port t = (t, Except.ok s.portRaw) := by
      rw [getAttr_prepared env _ t htp, evalProp_port_plain env t htrem, f12]
    simp [assertServerReachable, hostPortConsistency, unreachDispatch,
      localUnreachableFail, hH, hP, hR, hHt, hPt, hh, hpo, hb, hrem, hd]

/-- A prepared client with no configuration. -/
def sPrepBlank : DuctState := {sBlank with prepared := true}

/-- A prepared client with a host but no port. -/
def sHostOnly : DuctState :=
  { initDuct (Value.str "10.0.0.5") Value.none Value.none Value.none
      Value.none Value.none Value.none with prepared := true }

/-- A prepared client with a port but no host. -/
def sPortOnly : DuctState :=
  { initDuct Value.none (Value.int 9999) Value.none Value.none
      Value.none Value.none Value.none with prepared := true }

/-- A prepared client with host `10.0.0.5` and port `9999`, no tunnel. -/
def sBoth : DuctState :=
  { initDuct (Value.str "10.0.0.5") (Value.int 9999) Value.none Value.none
      Value.none Value.none Value.none with prepared := true }

/-- `envW` with no local port bound. -/
def envUnbound : Env := {envW with localPortBound := fun _ _ => false}

/-- C6 witness: the three reachability-check outcomes at concrete
clients; the local-unreachable message names `10.0.0.5:9999`. -/
theorem claim_C6_witness :
    assertServerReachable envW sPrepBlank = (sPrepBlank, Except.ok ()) ∧
    assertServerReachable envW sPortOnly
      = (sPortOnly, Except.error (Err.valueError "Port specified but no host provided.")) ∧
    assertServerReachable envW sHostOnly
      = (sHostOnly, Except.error (Err.valueError "Host specified but no port specified.")) ∧
    assertServerReachable envUnbound sBoth
      = ((disconnect envUnbound sBoth).1,
         Except.error (Err.ductServerUnreachable
           (localUnreachableMsg (Value.str "10.0.0.5") (Value.int 9999)))) ∧
    localUnreachableMsg (Value.str "10.0.0.5") (Value.int 9999)
      = "Cannot connect to '10.0.0.5:9999' on your current connection. Please check your connection before trying again." := by
  refine ⟨?_, ?_, ?_, ?_, ?_⟩
  · exact (claim_C6_reachability_check envW sPrepBlank rfl rfl).1 rfl rfl
  · exact (claim_C6_reachability_check envW sPortOnly rfl rfl).2.1 rfl (by decide)
  · exact (claim_C6_reachability_check envW sHostOnly rfl rfl).2.2.1 (by decide) rfl
  · exact (claim_C6_reachability_check envUnbound sBoth rfl rfl).2.2.2
      (by decide) (by decide) rfl rfl
  · rfl

/-- C7: For every quiescent client with a well-behaved disconnect hook
and a well-formed preparation snapshot (keys among the fields `_prepare`
snapshots, no duplicates — dictionary keys are unique), `reset()`
disconnects, clears the cached interactive credentials, restores every
snapshotted field to its snapshotted pre-prepare value (whatever it was,
including callables and host lists), clears the snapshot, clears the
prepared flag, and returns `self`. -/
theorem claim_C7_reset_restores (env : Env) (s : DuctState)
    (hn : env.disconnectFails = Option.none) (hd : s.disconnecting = false)
    (hkeys : ∀ p ∈ s.snapshot, p.1 ∈ snapKeys)
    (hnd : (s.snapshot.map Prod.fst).Nodup) :
    (reset env s).2 = Except.ok RetVal.selfV ∧
    (reset env s).1.prepared = false ∧
    (reset env s).1.snapshot = [] ∧
    (reset env s).1.cachedUser = Option.none ∧
    (reset env s).1.cachedPass = Option.none ∧
    s.cDisc + 1 ≤ (reset env s).1.cDisc ∧
    (∀ f v, (f, v) ∈ s.snapshot → readRaw f (reset env s).1 = v) := by
  obtain ⟨t1, t2, t3, t4, t5, t6, t7, t8, t9⟩ := reset_spec env s hn hd
  refine ⟨t1, t2, t3, t4, t5, t9, ?_⟩
  intro f v hmem
  simp only [reset]
  have hfr := disconnect_frames env s
  have hnr := disconnect_noraise env s hn
  rcases hdc : disconnect env s with ⟨s1, r1⟩
  rw [hdc] at hfr hnr
  replace hnr : r1 = Except.ok (if s.prepared = true then RetVal.selfV else RetVal.noneV) := hnr
  subst hnr
  rw [bindE_ok]
  have hsnap : s1.snapshot = s.snapshot := hfr.2.2.2.2.2.2.2.1
  have hdpc : ({s1 with cachedUser := Option.none, cachedPass := Option.none}.prepared = true →
      {s1 with cachedUser := Option.none, cachedPass := Option.none}.protoConn = false) := by
    intro hp
    have hsp : s.prepared = true := by rw [← hfr.2.2.2.2.2.1]; exact hp
    have := disconnect_protoConn_ok env s hsp hn
    rw [hdc] at this
    exact this
  have hval := restoreAll_values s1.snapshot env
    {s1 with cachedUser := Option.none, cachedPass := Option.none} hn hdpc
    (by rw [hsnap]; exact hkeys) (by rw [hsnap]; exact hnd) f v (by rw [hsnap]; exact hmem)
  obtain ⟨k1, _, _⟩ := restoreAll_facts s1.snapshot env
    {s1 with cachedUser := Option.none, cachedPass := Option.none} hn hdpc
  rcases hra : restoreAll env s1.snapshot
      {s1 with cachedUser := Option.none, cachedPass := Option.none} with ⟨s3, r3⟩
  rw [hra] at k1 hval
  replace k1 : r3 = Except.ok () := k1
  subst k1
  rw [bindE_ok]
  have hread : readRaw f {s3 with snapshot := [], prepared := false} = readRaw f s3 := by
    cases f <;> rfl
  rw [hread]
  exact hval

/-- C7 witness: a prepared client whose snapshot holds a callable host, a
host list for the username slot and a pre-lookup remote string. -/
def sSnap : DuctState :=
  { initDuct (Value.str "resolved") (Value.int 7) (Value.str "u") Value.none
      (Value.obj "remote") Value.none Value.none with
    prepared := true
    cachedUser := some "cached-user"
    snapshot := [(AttrName.hostRaw, Value.callable (Value.str "lazyhost")),
                 (AttrName.usernameRaw, Value.list ["a", "b"]),
                 (AttrName.remote, Value.str "my-remote")] }

theorem claim_C7_witness :
    (reset envW sSnap).2 = Except.ok RetVal.selfV ∧
    (reset envW sSnap).1.prepared = false ∧
    (reset envW sSnap).1.snapshot = [] ∧
    (reset envW sSnap).1.cachedUser = Option.none ∧
    (reset envW sSnap).1.cachedPass = Option.none ∧
    sSnap.cDisc + 1 ≤ (reset envW sSnap).1.cDisc ∧
    readRaw AttrName.hostRaw (reset envW sSnap).1 = Value.callable (Value.str "lazyhost") ∧
    readRaw AttrName.usernameRaw (reset envW sSnap).1 = Value.list ["a", "b"] ∧
    readRaw AttrName.remote (reset envW sSnap).1 = Value.str "my-remote" := by
  have h := claim_C7_reset_restores envW sSnap rfl rfl
    (by intro p hp; fin_cases hp <;> simp [snapKeys]) (by simp [sSnap])
  exact ⟨h.1, h.2.1, h.2.2.1, h.2.2.2.1, h.2.2.2.2.1, h.2.2.2.2.2.1,
    h.2.2.2.2.2.2 _ _ (by simp [sSnap]),
    h.2.2.2.2.2.2 _ _ (by simp [sSnap]),
    h.2.2.2.2.2.2 _ _ (by simp [sSnap])⟩

/-! ### The protocol registry (C8) -/

theorem lookupA_append (m : List (String × String)) (k v : String)
    (h : lookupA m k = Option.none) : lookupA (m ++ [(k, v)]) k = some v := by
  induction m with
  | nil => simp [lookupA]
  | cons hd tl ih =>
    rcases hd with ⟨a, b⟩
    by_cases hak : a = k
    · simp [lookupA, hak] at h
    · simp only [lookupA, List.cons_append, if_neg hak] at h ⊢
      exact ih h

/-- C8: in the protocol registry, registering the same key twice for two
classes with distinct names keeps the first binding and logs the ignored
duplicate (the log counter of the second registration is 1); resolving a
key with no registered implementation fails with the `DuctProtocolUnknown`
error naming the key. -/
theorem claim_C8_protocol_registry (m : List (String × String)) (key n1 n2 : String)
    (habsent : lookupA m key = Option.none) (hne : n1 ≠ n2) :
    lookupA (register_protocols m n1 [key]).1 key = some n1 ∧
    (register_protocols (register_protocols m n1 [key]).1 n2 [key]).1
      = (register_protocols m n1 [key]).1 ∧
    (register_protocols (register_protocols m n1 [key]).1 n2 [key]).2 = 1 ∧
    (∀ (m2 : List (String × String)) (k : String), lookupA m2 k = Option.none →
      for_protocol m2 k = Except.error (Err.ductProtocolUnknown
        ("Missing `Duct` implementation for protocol: '" ++ k ++ "'."))) := by
  have h1 : register_protocols m n1 [key] = (m ++ [(key, n1)], 0) := by
    simp [register_protocols, habsent, updateA]
  have h2 : lookupA (m ++ [(key, n1)]) key = some n1 := lookupA_append m key n1 habsent
  have h3 : register_protocols (m ++ [(key, n1)]) n2 [key] = (m ++ [(key, n1)], 1) := by
    simp [register_protocols, h2, Ne.symm hne]
  refine ⟨by rw [h1]; exact h2, by rw [h1, h3], by rw [h1, h3], ?_⟩
  intro m2 k hk
  simp [for_protocol, hk]

/-- C8 witness: two concrete registrations of the key `x`. -/
theorem claim_C8_witness :
    lookupA (register_protocols [] "ClassA" ["x"]).1 "x" = some "ClassA" ∧
    (register_protocols (register_protocols [] "ClassA" ["x"]).1 "ClassB" ["x"]).1
      = (register_protocols [] "ClassA" ["x"]).1 ∧
    (register_protocols (register_protocols [] "ClassA" ["x"]).1 "ClassB" ["x"]).2 = 1 ∧
    for_protocol [] "zzz" = Except.error (Err.ductProtocolUnknown
      "Missing `Duct` implementation for protocol: 'zzz'.") := by
  have h := claim_C8_protocol_registry [] "x" "ClassA" "ClassB" rfl (by decide)
  exact ⟨h.1, h.2.1, h.2.2.1, h.2.2.2 [] "zzz" rfl⟩

/-! ### Credential resolution (C9) -/

/-- Host values whose preparation involves no callable resolution, load
balancing or `host:port` splitting. -/
def plainHost : Value → Bool
  | Value.none => true
  | Value.str hs => !(matchesHostPort hs)
  | _ => false

/-- Port values whose coercion to an integer cannot fail. -/
def plainPort : Value → Bool
  | Value.none => true
  | Value.int _ => true
  | _ => false

/-- The effective value stored in `_port` by the coercion step for a
`plainPort` value. -/
def portNorm : Value → Value
  | Value.int n => if n = 0 then Value.none else Value.int n
  | _ => Value.none

theorem plainHost_not_callable (h : Value) (hh : plainHost h = true) :
    isCallable h = false := by
  cases h <;> simp_all [plainHost, isCallable]

theorem plainPort_not_callable (p : Value) (hp : plainPort p = true) :
    isCallable p = false := by
  cases p <;> simp_all [plainPort, isCallable]

/-- A client constructed with `username = True` and `password = True`. -/
def mkCredClient (h p : Value) : DuctState :=
  initDuct h p (Value.bool true) (Value.bool true) Value.none Value.none Value.none

theorem prepare_cred (env : Env) (h p : Value)
    (hh : plainHost h = true) (hp : plainPort p = true) :
    prepare env {mkCredClient h p with getting := true} =
      ({mkCredClient h p with getting := true, cPrep := 1, portRaw := portNorm p,
                              prepared := true}, Except.ok ()) := by
  cases h with
  | none =>
    cases p with
    | none =>
      simp [prepare, prepareImpl, mkCredClient, initDuct, lookupStage, regOk, remOk,
        cacOk, resolveFields, resolveField, readRaw, rawStore, isCallable, callV,
        hostListStage, splitStage, portStage, pyTruthy, pyInt, portNorm]
    | int n =>
      by_cases hn0 : n = 0 <;>
        simp [prepare, prepareImpl, mkCredClient, initDuct, lookupStage, regOk, remOk,
          cacOk, resolveFields, resolveField, readRaw, rawStore, isCallable, callV,
          hostListStage, splitStage, portStage, pyTruthy, pyInt, portNorm, hn0]
    | _ => simp [plainPort] at hp
  | str hs =>
    replace hh : matchesHostPort hs = false := by simpa [plainHost] using hh
    cases p with
    | none =>
      simp [prepare, prepareImpl, mkCredClient, initDuct, lookupStage, regOk, remOk,
        cacOk, resolveFields, resolveField, readRaw, rawStore, isCallable, callV,
        hostListStage, splitStage, portStage, pyTruthy, pyInt, portNorm, hh]
    | int n =>
      by_cases hn0 : n = 0 <;>
        simp [prepare, prepareImpl, mkCredClient, initDuct, lookupStage, regOk, remOk,
          cacOk, resolveFields, resolveField, readRaw, rawStore, isCallable, callV,
          hostListStage, splitStage, portStage, pyTruthy, pyInt, portNorm, hh, hn0]
    | _ => simp [plainPort] at hp
  | _ => simp [plainHost] at hh

/-- The state of the credential client after the first `username` read:
prepared, port coerced, with the prompted username cached. -/
def credPrompted (env : Env) (h p : Value) : DuctState :=
  {mkCredClient h p with cPrep := 1, portRaw := portNorm p, prepared := true,
                         cachedUser := some env.promptUser, cPromptU := 1}

theorem getAttr_cred_first (env : Env) (h p : Value)
    (hh : plainHost h = true) (hp : plainPort p = true) :
    getAttr env AttrName.username (mkCredClient h p)
      = (credPrompted env h p, Except.ok (Value.str env.promptUser)) := by
  simp only [getAttr]
  rw [if_pos ⟨rfl, rfl, rfl, by simp [prepareTriggers]⟩]
  rw [prepare_cred env h p hh hp]
  simp [evalProp, mkCredClient, initDuct, credPrompted]

/-- The credential client after the first `password` read as well. -/
def credPassPrompted (env : Env) (h p : Value) : DuctState :=
  {credPrompted env h p with cachedPass := some env.promptPass, cPromptP := 1}

theorem getAttr_cred_second (env : Env) (h p : Value) :
    getAttr env AttrName.username (credPrompted env h p)
      = (credPrompted env h p, Except.ok (Value.str env.promptUser)) := by
  rw [getAttr_prepared env _ _ rfl]
  simp [evalProp, credPrompted, mkCredClient, initDuct]

theorem getAttr_cred_pass1 (env : Env) (h p : Value) :
    getAttr env AttrName.password (credPrompted env h p)
      = (credPassPrompted env h p, Except.ok (Value.str env.promptPass)) := by
  rw [getAttr_prepared env _ _ rfl]
  simp [evalProp, credPrompted, credPassPrompted, mkCredClient, initDuct]

theorem getAttr_cred_pass2 (env : Env) (h p : Value) :
    getAttr env AttrName.password (credPassPrompted env h p)
      = (credPassPrompted env h p, Except.ok (Value.str env.promptPass)) := by
  rw [getAttr_prepared env _ _ rfl]
  simp [evalProp, credPrompted, credPassPrompted, mkCredClient, initDuct]

/-- C9: for every client constructed with `username = True` and
`password = True` (and preparation-trivial host/port), the first read of
`username` prompts interactively and caches the entered value (the prompt
counter is 1), the second read returns the same cached value leaving the
state — including the prompt counter — unchanged; the same holds for
`password` with the masked prompt; and `reset()` clears both cached
credentials. -/
theorem claim_C9_credentials_prompt_once (env : Env) (h p : Value)
    (hh : plainHost h = true) (hp : plainPort p = true) :
    getAttr env AttrName.username (mkCredClient h p)
      = (credPrompted env h p, Except.ok (Value.str env.promptUser)) ∧
    getAttr env AttrName.username (credPrompted env h p)
      = (credPrompted env h p, Except.ok (Value.str env.promptUser)) ∧
    (credPrompted env h p).cPromptU = 1 ∧
    getAttr env AttrName.password (credPrompted env h p)
      = (credPassPrompted env h p, Except.ok (Value.str env.promptPass)) ∧
    getAttr env AttrName.password (credPassPrompted env h p)
      = (credPassPrompted env h p, Except.ok (Value.str env.promptPass)) ∧
    (credPassPrompted env h p).cPromptP = 1 ∧
    (credPassPrompted env h p).cPromptU = 1 ∧
    (env.disconnectFails = Option.none →
      (reset env (credPassPrompted env h p)).1.cachedUser = Option.none ∧
      (reset env (credPassPrompted env h p)).1.cachedPass = Option.none) := by
  refine ⟨getAttr_cred_first env h p hh hp, getAttr_cred_second env h p, rfl,
    getAttr_cred_pass1 env h p, getAttr_cred_pass2 env h p, rfl, rfl, ?_⟩
  intro hn
  have hd := reset_spec env (credPassPrompted env h p) hn rfl
  exact ⟨hd.2.2.2.1, hd.2.2.2.2.1⟩

/-- C9 witness: the blank credential client under `envW`; the prompted
username is `alice` and the prompted password is `hunter2`. -/
theorem claim_C9_witness :
    plainHost Value.none = true ∧ plainPort Value.none = true ∧
    (getAttr envW AttrName.username (mkCredClient Value.none Value.none)
      = (credPrompted envW Value.none Value.none, Except.ok (Value.str "alice")) ∧
     getAttr envW AttrName.username (credPrompted envW Value.none Value.none)
      = (credPrompted envW Value.none Value.none, Except.ok (Value.str "alice")) ∧
     (credPrompted envW Value.none Value.none).cPromptU = 1 ∧
     (credPassPrompted envW Value.none Value.none).cPromptP = 1) := by
  have h := claim_C9_credentials_prompt_once envW Value.none Value.none rfl rfl
  exact ⟨rfl, rfl, h.1, h.2.1, h.2.2.1, h.2.2.2.2.2.1⟩
